import Mathlib

/-!
Verification of the turn-based military simulation engine (`taiwan` crate).

Shallow embedding conventions:
* Rust `f32`/`f64` values are modelled as `ℚ` with exact arithmetic;
  `.min x` / `.max x` become `min`/`max`.
* Rust `as i32` casts of floats are truncation toward zero, modelled by
  `ratTrunc`; `u32` arithmetic wraps modulo `2^32` where overflow can occur.
* `calculate_distance` returns `sqrt (dx^2 + dy^2)`, which is irrational in
  general.  Every comparison `distance ≤ r` in the source is embedded as
  `sqrtle (dx^2+dy^2) r`, using `sqrt d ≤ r ↔ 0 ≤ r ∧ d ≤ r*r` (for `d ≥ 0`);
  functions that use the distance value linearly take the distance as an
  explicit `ℚ` argument and are related to the geometry at perfect squares.
* `HashMap`s are modelled as association lists; iteration order follows the
  insertion order of the list.  The claims proved here do not depend on
  iteration order.
* `rand` draws are passed in as explicit `ℚ` arguments (the spec requires an
  injectable generator).
-/

set_option linter.unusedVariables false

namespace Taiwan

/-- Truncation toward zero of a rational: the semantics of Rust's `as i32`
cast on the values reached by the claims (saturation bounds of `i32` are
never approached in any statement below). -/
def ratTrunc (q : ℚ) : Int := if 0 ≤ q then ⌊q⌋ else -⌊-q⌋

/-- Embedding of `sqrt d2 ≤ r` without square roots, where `d2` is the
squared distance: valid because `Real.sqrt d2 ≤ r ↔ 0 ≤ r ∧ d2 ≤ r * r`
whenever `0 ≤ d2`. -/
def sqrtle (d2 r : ℚ) : Bool := decide (0 ≤ r) && decide (d2 ≤ r * r)

/-- Embedding of `sqrt d2 < r` without square roots (`0 ≤ d2`). -/
def sqrtlt (d2 r : ℚ) : Bool := decide (0 < r) && decide (d2 < r * r)

/-- Weather, from `game/mod.rs`. -/
inductive Weather
  | Clear
  | Rain
  | Storm
  | Fog
deriving DecidableEq, Repr

/-- Time of day, from `game/mod.rs`. -/
inductive TimeOfDay
  | Dawn
  | Day
  | Dusk
  | Night
deriving DecidableEq, Repr

/-- Game phases, from `game/mod.rs` (`GamePhase`). -/
inductive GamePhase
  | Planning
  | Movement
  | Combat
  | Supply
  | EndTurn
deriving DecidableEq, Repr

/-- Unit status, referenced throughout `units/`; the enum itself is declared
in the units module root (absent from `src/`), variants taken from every use
site (`Active`, `Entrenched`, `Disabled`, `Retreating`, `Destroyed`). -/
inductive UnitStatus
  | Active
  | Entrenched
  | Disabled
  | Retreating
  | Destroyed
deriving DecidableEq, Repr

/-- Unit-level error subtype, from use sites (`UnitError::Disabled`). -/
inductive UnitError
  | Disabled
deriving DecidableEq, Repr

/-- Game errors, from `game/mod.rs` (`GameError`). -/
inductive GameError
  | InvalidMove
  | InvalidAttack
  | InsufficientSupplies
  | UnitNotFound
  | CityNotFound
  | RoadNotFound
  | PhaseError
  | UnitErr (e : UnitError)
deriving DecidableEq, Repr

/-- Position record; fields from the construction sites in `units/sea.rs`
and `units/air.rs` (`x`, `y`, `heading`, `altitude`, `depth`). -/
structure Position where
  x : ℚ
  y : ℚ
  heading : ℚ
  altitude : Option ℚ
  depth : Option ℚ
deriving DecidableEq, Repr

/-- Squared straight-line distance between two positions; the source's
`calculate_distance` is `sqrt` of this quantity. -/
def Position.distSq (p q : Position) : ℚ :=
  (q.x - p.x) * (q.x - p.x) + (q.y - p.y) * (q.y - p.y)

/-- Unit statistics; fields from the construction sites in `units/land.rs`,
`units/sea.rs`, `units/air.rs` plus `vision_range` read in
`game/state.rs::calculate_vision_range` (the declaring module file is not in
`src/`). -/
structure UnitStats where
  strength : Int
  morale : ℚ
  training : ℚ
  fatigue : ℚ
  supply_level : ℚ
  vision_range : ℚ := 10
deriving DecidableEq, Repr

/-- Arsenal; fields from the construction site in
`game/state.rs::resupply_unit` (`ammunition`, `fuel`, `supplies`; the
missile map is never read by any verified operation and is omitted). -/
structure Arsenal where
  ammunition : Int
  fuel : ℚ
  supplies : Int
deriving DecidableEq, Repr

/-- Land unit kinds, from `units/land.rs`. -/
inductive LandUnitType
  | Infantry
  | Mechanized
  | Artillery
  | SpecialForces
  | Tank
  | AntiAirUnit
deriving DecidableEq, Repr

/-- Land unit combat capabilities, from `units/land.rs` (fields not read by
any verified operation are kept for shape fidelity). -/
structure UnitCapabilities where
  anti_armor : ℚ
  close_attack : ℚ
  medium_attack : ℚ
  long_attack : ℚ
  aa_range : Int
  aa_altitude : Int
  aa_damage : ℚ
  bridging : Bool
  special_forces : Bool
deriving DecidableEq, Repr

/-- Terrain bonus record, from `units/units.rs` / `map/terrain.rs`. -/
structure TerrainBonus where
  offensive_multiplier : ℚ
  defensive_multiplier : ℚ
  speed_multiplier : ℚ
deriving DecidableEq, Repr

/-- Land unit, from `units/land.rs` (the visibility profile and supply
consumption records are never read by a verified operation and are
omitted). -/
structure LandUnit where
  name : String
  unit_type : LandUnitType
  faction : String
  position : Position
  stats : UnitStats
  arsenal : Arsenal
  status : UnitStatus
  terrain_bonus : Option TerrainBonus
  entrenchment : ℚ
  capabilities : UnitCapabilities
deriving DecidableEq, Repr

/-- Ship capabilities, from `units/sea.rs`. -/
structure ShipCapabilities where
  max_speed : ℚ
  lift_capacity : ℚ
  fuel_capacity : ℚ
  missile_defense : ℚ
  gun_range : ℚ
  gun_damage : ℚ
  torpedo_range : ℚ
  torpedo_damage : ℚ
  aa_range : ℚ
  aa_ceiling : ℚ
deriving DecidableEq, Repr

/-- Ship, from `units/sea.rs` (sensor suite omitted: never read by a
verified operation). -/
structure Ship where
  name : String
  faction : String
  position : Position
  stats : UnitStats
  arsenal : Arsenal
  status : UnitStatus
  hull_integrity : ℚ
  damage_control : ℚ
  capabilities : ShipCapabilities
deriving DecidableEq, Repr

/-- Fighter generations, from `units/air.rs`. -/
inductive FighterGeneration
  | Fourth
  | FourthPointFive
  | Fifth
deriving DecidableEq, Repr

/-- Bomber kinds, from `units/air.rs`. -/
inductive BomberType
  | Stealth
  | NonStealth
deriving DecidableEq, Repr

/-- Air unit capabilities, from `units/air.rs`. -/
structure AirCapabilities where
  combat_radius : ℚ
  max_speed : ℚ
  service_ceiling : ℚ
  radar_range : ℚ
  ecm_strength : ℚ
deriving DecidableEq, Repr

/-- Air unit base record, from `units/air.rs` (maintenance profile omitted:
never read by a verified operation). -/
structure AirUnit where
  name : String
  faction : String
  position : Position
  stats : UnitStats
  arsenal : Arsenal
  status : UnitStatus
  stealth : ℚ
  radar_signature : ℚ
  capabilities : AirCapabilities
deriving DecidableEq, Repr

/-- Fighter squadron, from `units/air.rs`. -/
structure FighterSquadron where
  base : AirUnit
  generation : FighterGeneration
  air_to_air : ℚ
  air_to_ground : ℚ
deriving DecidableEq, Repr

/-- Bomber squadron, from `units/air.rs`. -/
structure BomberSquadron where
  base : AirUnit
  bomber_type : BomberType
  payload_capacity : ℚ
deriving DecidableEq, Repr

/-- Closed variant over the concrete `MilitaryUnit` implementors
(`LandUnit`, `Ship`, `FighterSquadron`, `BomberSquadron`); this is the
shallow embedding of `&dyn MilitaryUnit` (spec §9 calls for exactly this
closed tagged variant). -/
inductive CUnit
  | land (u : LandUnit)
  | ship (s : Ship)
  | fighter (f : FighterSquadron)
  | bomber (b : BomberSquadron)
deriving DecidableEq, Repr

/-- Dynamic dispatch of `get_position`. -/
def CUnit.get_position : CUnit → Position
  | .land u => u.position
  | .ship s => s.position
  | .fighter f => f.base.position
  | .bomber b => b.base.position

/-- Dynamic dispatch of `get_stats`. -/
def CUnit.get_stats : CUnit → UnitStats
  | .land u => u.stats
  | .ship s => s.stats
  | .fighter f => f.base.stats
  | .bomber b => b.base.stats

/-- Dynamic dispatch of `get_arsenal`. -/
def CUnit.get_arsenal : CUnit → Arsenal
  | .land u => u.arsenal
  | .ship s => s.arsenal
  | .fighter f => f.base.arsenal
  | .bomber b => b.base.arsenal

/-- Dynamic dispatch of `get_status`. -/
def CUnit.get_status : CUnit → UnitStatus
  | .land u => u.status
  | .ship s => s.status
  | .fighter f => f.base.status
  | .bomber b => b.base.status

/-- Dynamic dispatch of `get_faction` (used by
`game/state.rs::count_faction_units`). -/
def CUnit.get_faction : CUnit → String
  | .land u => u.faction
  | .ship s => s.faction
  | .fighter f => f.base.faction
  | .bomber b => b.base.faction

/-- `LandUnit::receive_damage` (`units/land.rs` lines 228-240): strength is
scaled by `1 - damage` and truncated to `i32`; status becomes `Destroyed`
when the new strength is `≤ 0`, else `Disabled` when the new strength is
below a quarter of itself (integer division, as written in the source);
morale is then scaled by `1 - damage * 0.5`. -/
def LandUnit.receive_damage (u : LandUnit) (damage : ℚ) : LandUnit :=
  let strength' := ratTrunc ((u.stats.strength : ℚ) * (1 - damage))
  let status' :=
    if strength' ≤ 0 then UnitStatus.Destroyed
    else if strength' < strength'.tdiv 4 then UnitStatus.Disabled
    else u.status
  { u with
    stats := { u.stats with
      strength := strength'
      morale := u.stats.morale * (1 - damage * (1/2)) }
    status := status' }

/-- `LandUnit::update_supply` (`units/land.rs` lines 242-244): adds the rate
and clamps only from above at `1.0`. -/
def LandUnit.update_supply (u : LandUnit) (supply_rate : ℚ) : LandUnit :=
  { u with stats := { u.stats with
      supply_level := min (u.stats.supply_level + supply_rate) 1 } }

/-- `Ship::receive_damage` (`units/sea.rs` lines 278-291): effective damage
is attenuated by missile defense, the hull is scaled by `1 - effective`,
status becomes `Destroyed` at hull `≤ 0`, else `Disabled` below `0.25`;
morale is scaled by `1 - effective * 0.3`. -/
def Ship.receive_damage (s : Ship) (damage : ℚ) : Ship :=
  let effective_damage := damage * (1 - s.capabilities.missile_defense * (1/2))
  let hull' := s.hull_integrity * (1 - effective_damage)
  let status' :=
    if hull' ≤ 0 then UnitStatus.Destroyed
    else if hull' < 1/4 then UnitStatus.Disabled
    else s.status
  { s with
    hull_integrity := hull'
    status := status'
    stats := { s.stats with
      morale := s.stats.morale * (1 - effective_damage * (3/10)) } }

/-- `Ship::update_supply` (`units/sea.rs` lines 293-296). -/
def Ship.update_supply (s : Ship) (supply_rate : ℚ) : Ship :=
  { s with stats := { s.stats with
      supply_level := min (s.stats.supply_level + supply_rate) 1 } }

/-- `Ship::repair_hull` (`units/sea.rs` lines 181-184). -/
def Ship.repair_hull (s : Ship) (hours : ℚ) : Ship :=
  let repair_rate := (1/10) * s.damage_control * hours
  { s with hull_integrity := min (s.hull_integrity + repair_rate) 1 }

/-- `FighterSquadron::receive_damage` (`units/air.rs` lines 266-276). -/
def FighterSquadron.receive_damage (f : FighterSquadron) (damage : ℚ) :
    FighterSquadron :=
  let actual_damage := damage * (1 - f.base.stealth * (1/2))
  let strength' := ratTrunc ((f.base.stats.strength : ℚ) * (1 - actual_damage))
  let status' :=
    if strength' ≤ 0 then UnitStatus.Destroyed
    else if strength' < strength'.tdiv 4 then UnitStatus.Disabled
    else f.base.status
  { f with base := { f.base with
      stats := { f.base.stats with strength := strength' }
      status := status' } }

/-- `FighterSquadron::update_supply` (`units/air.rs` lines 278-280). -/
def FighterSquadron.update_supply (f : FighterSquadron) (supply_rate : ℚ) :
    FighterSquadron :=
  { f with base := { f.base with stats := { f.base.stats with
      supply_level := min (f.base.stats.supply_level + supply_rate) 1 } } }

/-- `BomberSquadron::receive_damage` (`units/air.rs` lines 327-337). -/
def BomberSquadron.receive_damage (b : BomberSquadron) (damage : ℚ) :
    BomberSquadron :=
  let actual_damage := damage * (1 - b.base.stealth * (3/10))
  let strength' := ratTrunc ((b.base.stats.strength : ℚ) * (1 - actual_damage))
  let status' :=
    if strength' ≤ 0 then UnitStatus.Destroyed
    else if strength' < strength'.tdiv 4 then UnitStatus.Disabled
    else b.base.status
  { b with base := { b.base with
      stats := { b.base.stats with strength := strength' }
      status := status' } }

/-- `BomberSquadron::update_supply` (`units/air.rs` lines 339-341). -/
def BomberSquadron.update_supply (b : BomberSquadron) (supply_rate : ℚ) :
    BomberSquadron :=
  { b with base := { b.base with stats := { b.base.stats with
      supply_level := min (b.base.stats.supply_level + supply_rate) 1 } } }

/-- Dynamic dispatch of `receive_damage`. -/
def CUnit.receive_damage : CUnit → ℚ → CUnit
  | .land u, d => .land (u.receive_damage d)
  | .ship s, d => .ship (s.receive_damage d)
  | .fighter f, d => .fighter (f.receive_damage d)
  | .bomber b, d => .bomber (b.receive_damage d)

/-- Dynamic dispatch of `update_supply`. -/
def CUnit.update_supply : CUnit → ℚ → CUnit
  | .land u, r => .land (u.update_supply r)
  | .ship s, r => .ship (s.update_supply r)
  | .fighter f, r => .fighter (f.update_supply r)
  | .bomber b, r => .bomber (b.update_supply r)

/-- `LandUnit::calculate_combat_effectiveness` (`units/land.rs` lines
168-177). -/
def LandUnit.calculate_combat_effectiveness (u : LandUnit) : ℚ :=
  let morale_factor := u.stats.morale
  let supply_factor := u.stats.supply_level
  let entrenchment_factor := 1 + u.entrenchment * (1/2)
  let terrain_factor :=
    match u.terrain_bonus with
    | some bonus => bonus.defensive_multiplier
    | none => 1
  morale_factor * supply_factor * entrenchment_factor * terrain_factor

/-- `LandUnit::calculate_damage` (`units/land.rs` lines 214-226); the
distance brackets `≤ 5` and `≤ 20` are expressed on the squared distance. -/
def LandUnit.calculate_damage (u : LandUnit) (target : CUnit) : ℚ :=
  let d2 := u.position.distSq target.get_position
  let base_damage :=
    if sqrtle d2 5 then u.capabilities.close_attack
    else if sqrtle d2 20 then u.capabilities.medium_attack
    else u.capabilities.long_attack
  base_damage * u.calculate_combat_effectiveness

/-- `LandUnit::can_attack` (`units/land.rs` lines 197-212). -/
def LandUnit.can_attack (u : LandUnit) (target : CUnit) : Bool :=
  if u.stats.supply_level < 1/10 || u.arsenal.ammunition == 0 then false
  else
    let d2 := u.position.distSq target.get_position
    match u.unit_type with
    | .Infantry | .Mechanized => sqrtle d2 5
    | .Artillery => sqrtle d2 30
    | .SpecialForces => sqrtle d2 10
    | _ => sqrtle d2 15

/-- `Ship::calculate_damage` (`units/sea.rs` lines 263-276). -/
def Ship.calculate_damage (s : Ship) (target : CUnit) : ℚ :=
  let base_damage :=
    if 0 < (target.get_position.altitude.getD 0) then
      s.capabilities.aa_range * (1/2)
    else if (target.get_position.depth).isSome then
      s.capabilities.torpedo_damage
    else
      s.capabilities.gun_damage
  base_damage * s.hull_integrity * s.stats.training

/-- `Ship::can_attack` (`units/sea.rs` lines 243-261). -/
def Ship.can_attack (s : Ship) (target : CUnit) : Bool :=
  if s.stats.supply_level < 1/10 || s.arsenal.ammunition == 0 then false
  else
    let d2 := s.position.distSq target.get_position
    let target_altitude := target.get_position.altitude.getD 0
    if 0 < target_altitude then
      sqrtle d2 s.capabilities.aa_range &&
        decide (target_altitude ≤ s.capabilities.aa_ceiling)
    else if (target.get_position.depth).isSome then
      sqrtle d2 s.capabilities.torpedo_range
    else
      sqrtle d2 s.capabilities.gun_range

/-- `FighterSquadron::calculate_damage` (`units/air.rs` lines 250-264). -/
def FighterSquadron.calculate_damage (f : FighterSquadron) (target : CUnit) :
    ℚ :=
  let effectiveness :=
    if (target.get_position.altitude).isSome then f.air_to_air
    else f.air_to_ground
  let generation_bonus :=
    match f.generation with
    | .Fifth => 13/10
    | .FourthPointFive => 11/10
    | .Fourth => 1
  effectiveness * generation_bonus * f.base.stats.training

/-- `FighterSquadron::can_attack` (`units/air.rs` lines 231-248). -/
def FighterSquadron.can_attack (f : FighterSquadron) (target : CUnit) : Bool :=
  if f.base.stats.supply_level < 1/10 || f.base.arsenal.ammunition == 0 then
    false
  else
    let d2 := f.base.position.distSq target.get_position
    if !sqrtle d2 f.base.capabilities.combat_radius then false
    else
      match target.get_position.altitude with
      | some target_alt => decide (target_alt ≤ f.base.capabilities.service_ceiling)
      | none => true

/-- Hardness for bombing, `impl Bombable for LandUnit` (`units/land.rs`
lines 318-327); `LandUnit` is the only unit type implementing `Bombable`,
all other targets take the default `0.5` in
`BomberSquadron::calculate_damage`. -/
def LandUnit.get_hardness (u : LandUnit) : ℚ :=
  match u.unit_type with
  | .Tank => 4/5
  | .Mechanized => 3/5
  | .Artillery | .AntiAirUnit => 1/2
  | .Infantry | .SpecialForces => 3/10

/-- `BomberSquadron::calculate_damage` (`units/air.rs` lines 315-325). -/
def BomberSquadron.calculate_damage (b : BomberSquadron) (target : CUnit) :
    ℚ :=
  let base_damage := b.payload_capacity * b.base.stats.training
  let target_hardness :=
    match target with
    | .land u => u.get_hardness
    | _ => 1/2
  base_damage * (1 - target_hardness)

/-- `BomberSquadron::can_attack` (`units/air.rs` lines 300-313). -/
def BomberSquadron.can_attack (b : BomberSquadron) (target : CUnit) : Bool :=
  if b.base.stats.supply_level < 1/10 || b.base.arsenal.ammunition == 0 then
    false
  else if (target.get_position.altitude).isSome then false
  else
    sqrtle (b.base.position.distSq target.get_position)
      b.base.capabilities.combat_radius

/-- Dynamic dispatch of `calculate_damage`. -/
def CUnit.calculate_damage : CUnit → CUnit → ℚ
  | .land u, t => u.calculate_damage t
  | .ship s, t => s.calculate_damage t
  | .fighter f, t => f.calculate_damage t
  | .bomber b, t => b.calculate_damage t

/-- Dynamic dispatch of `can_attack`. -/
def CUnit.can_attack : CUnit → CUnit → Bool
  | .land u, t => u.can_attack t
  | .ship s, t => s.can_attack t
  | .fighter f, t => f.can_attack t
  | .bomber b, t => b.can_attack t

/-- `CombatEvent`, from `game/combat.rs` lines 25-45. -/
inductive CombatEvent
  | Hit (attacker_id defender_id : Nat) (damage : ℚ)
  | UnitDestroyed (unit_id : Nat)
  | UnitRetreated (unit_id : Nat)
  | MissileIntercepted (missile_id interceptor_id : Nat)
  | SupplyDisrupted (unit_id : Nat)
deriving DecidableEq, Repr

/-- `CombatResult`, from `game/combat.rs` lines 16-23. -/
structure CombatResult where
  attacker_damage_dealt : ℚ
  defender_damage_dealt : ℚ
  attacker_losses : Int
  defender_losses : Int
  combat_events : List CombatEvent
deriving DecidableEq, Repr

/-- `CombatModifiers`, from `game/combat.rs` lines 47-56. -/
structure CombatModifiers where
  weather : ℚ
  time_of_day : ℚ
  terrain : ℚ
  supply : ℚ
  morale : ℚ
  entrenchment : ℚ
  air_superiority : ℚ
  naval_superiority : ℚ
deriving DecidableEq, Repr

/-- `impl Default for CombatModifiers` (`game/combat.rs` lines 58-71). -/
def CombatModifiers.default : CombatModifiers := ⟨1, 1, 1, 1, 1, 1, 1, 1⟩

/-- Modelled from the spec: `TerrainType::get_defense_multiplier` is called
in `game/combat.rs::calculate_defense_power` but is defined nowhere under
`src/`.  Spec §4.2 calls it the terrain defense multiplier, a function of
the terrain and the defending unit, so the terrain value is modelled as
that abstract function. -/
structure TerrainM where
  get_defense_multiplier : CUnit → ℚ

/-- `CombatResolver::validate_combat` (`game/combat.rs` lines 137-159). -/
def validate_combat (attacker defender : CUnit) : Bool :=
  if attacker.get_status ≠ UnitStatus.Active ||
      defender.get_status ≠ UnitStatus.Active then false
  else if attacker.get_arsenal.ammunition ≤ 0 then false
  else if !attacker.can_attack defender then false
  else true

/-- `CombatResolver::calculate_attack_power` (`game/combat.rs` lines
161-177). -/
def calculate_attack_power (attacker defender : CUnit)
    (modifiers : CombatModifiers) : ℚ :=
  let base_power := attacker.calculate_damage defender
  let stats := attacker.get_stats
  base_power * modifiers.weather * modifiers.time_of_day * modifiers.supply *
    stats.morale * stats.training * (1 - stats.fatigue)

/-- `CombatResolver::calculate_defense_power` (`game/combat.rs` lines
179-201). -/
def calculate_defense_power (defender attacker : CUnit) (terrain : TerrainM)
    (modifiers : CombatModifiers) : ℚ :=
  let base_defense : ℚ :=
    match defender.get_status with
    | UnitStatus.Entrenched => 3/2
    | UnitStatus.Active => 1
    | _ => 7/10
  let terrain_bonus := terrain.get_defense_multiplier defender
  let stats := defender.get_stats
  base_defense * terrain_bonus * modifiers.terrain * modifiers.entrenchment *
    stats.training * (1 - stats.fatigue)

/-- Air-combat base chance of `calculate_hit_chance`: the downcast
`attacker as Option<&FighterSquadron>` yields `0.7 + air_to_air * 0.3` for
fighters and the fallback `0.5` otherwise. -/
def air_base_chance : CUnit → ℚ
  | .fighter f => 7/10 + f.air_to_air * (3/10)
  | _ => 1/2

/-- Naval-combat base chance of `calculate_hit_chance`: the downcast
`attacker as Option<&Ship>` yields `0.6 + missile_defense * 0.2` for ships
and the fallback `0.4` otherwise. -/
def naval_base_chance : CUnit → ℚ
  | .ship s => 3/5 + s.capabilities.missile_defense * (1/5)
  | _ => 2/5

/-- `CombatResolver::calculate_hit_chance` (`game/combat.rs` lines 252-293):
domain base chance selected on the defender's altitude/depth with a downcast
of the attacker (`FighterSquadron` for air, `Ship` for naval), then weather
penalty (0.3 below 0.5, 0.1 below 0.8), then time-of-day penalty (0.2 below
0.5, 0.1 below 0.8), clamped by `.max(0.1).min(0.95)`. -/
def calculate_hit_chance (attacker defender : CUnit)
    (modifiers : CombatModifiers) : ℚ :=
  let base_chance : ℚ :=
    if (defender.get_position.altitude).isSome then air_base_chance attacker
    else if (defender.get_position.depth).isSome then
      naval_base_chance attacker
    else 4/5
  let weather_penalty : ℚ :=
    if modifiers.weather < 1/2 then 3/10
    else if modifiers.weather < 4/5 then 1/10
    else 0
  let time_penalty : ℚ :=
    if modifiers.time_of_day < 1/2 then 1/5
    else if modifiers.time_of_day < 4/5 then 1/10
    else 0
  min (max (base_chance - weather_penalty - time_penalty) (1/10)) (19/20)

/-- `CombatResolver::resolve_strike` (`game/combat.rs` lines 203-250); the
two `rng.gen::<f32>()` draws are the explicit arguments `roll_att` and
`roll_def`.  Returns `(att_damage, def_damage)` and the logged Hit
events. -/
def resolve_strike (attack_power defense_power : ℚ)
    (attacker defender : CUnit) (modifiers : CombatModifiers)
    (roll_att roll_def : ℚ) : (ℚ × ℚ) × List CombatEvent :=
  let att_hit_chance := calculate_hit_chance attacker defender modifiers
  let def_hit_chance := calculate_hit_chance defender attacker modifiers
  let att_hits := roll_att < att_hit_chance
  let def_hits := roll_def < def_hit_chance
  let att_damage := if att_hits then attack_power * (1 - min defense_power (4/5)) else 0
  let def_damage := if def_hits then defense_power * (1/2) * (1 - min attack_power (4/5)) else 0
  let log₁ := if att_hits then [CombatEvent.Hit 0 1 att_damage] else []
  let log₂ := if def_hits then [CombatEvent.Hit 1 0 def_damage] else []
  ((att_damage, def_damage), log₁ ++ log₂)

/-- `CombatResolver::apply_damage` (`game/combat.rs` lines 295-324): applies
`receive_damage` and logs destruction/retreat events.  The loss-statistics
branch of the source (`if unit == result.attacker_losses as _`) is ill-typed
Rust and is not modelled; no claim reads the loss counters. -/
def apply_damage (unit : CUnit) (damage : ℚ) : CUnit × List CombatEvent :=
  let unit' := unit.receive_damage damage
  let events :=
    match unit'.get_status with
    | UnitStatus.Destroyed => [CombatEvent.UnitDestroyed 0]
    | UnitStatus.Retreating => [CombatEvent.UnitRetreated 0]
    | _ => []
  (unit', events)

/-- `CombatResolver::handle_special_effects` (`game/combat.rs` lines
326-349).  No unit type in `src/` implements the `AntiAir` trait, so the
missile-interception downcast never succeeds; the supply-disruption event
fires when the attacker's raw calculated damage exceeds 0.5. -/
def handle_special_effects (attacker defender : CUnit) : List CombatEvent :=
  if (1/2 : ℚ) < attacker.calculate_damage defender then
    [CombatEvent.SupplyDisrupted 0]
  else []

/-- Outcome of `resolve_combat`: the mutated attacker and defender together
with the returned `CombatResult`. -/
structure CombatOutcome where
  attacker : CUnit
  defender : CUnit
  result : CombatResult
deriving DecidableEq, Repr

/-- `CombatResolver::resolve_combat` (`game/combat.rs` lines 86-135):
validate, compute attack and defense power from the incoming (pre-damage)
units, resolve the strike, then apply `def_damage` to the attacker and
`att_damage` to the defender, collect events, and return the result. -/
def resolve_combat (attacker defender : CUnit) (terrain : TerrainM)
    (modifiers : Option CombatModifiers) (roll_att roll_def : ℚ) :
    Except GameError CombatOutcome :=
  if !validate_combat attacker defender then
    Except.error GameError.InvalidAttack
  else
    let mods := modifiers.getD CombatModifiers.default
    let attack_power := calculate_attack_power attacker defender mods
    let defense_power := calculate_defense_power defender attacker terrain mods
    let strike := resolve_strike attack_power defense_power attacker defender
      mods roll_att roll_def
    let att_damage := strike.1.1
    let def_damage := strike.1.2
    let appliedAtt := apply_damage attacker def_damage
    let appliedDef := apply_damage defender att_damage
    let special := handle_special_effects attacker defender
    Except.ok
      { attacker := appliedAtt.1
        defender := appliedDef.1
        result :=
          { attacker_damage_dealt := att_damage
            defender_damage_dealt := def_damage
            attacker_losses := 0
            defender_losses := 0
            combat_events := strike.2 ++ appliedAtt.2 ++ appliedDef.2 ++ special } }

/-- Hub, from `infrastructure/mod.rs` lines 17-24. -/
structure Hub where
  name : String
  x : ℚ
  y : ℚ
  storage : Int
  condition : ℚ
  controller : String
deriving DecidableEq, Repr

/-- City, from `infrastructure/cities.rs` (demographic, defense and
facility records are never read by a verified operation and are omitted;
`game/state.rs::is_over` reads `city.controller`, a field `City` does not
declare — the evident referent is `base.controller` and the embedding reads
that). -/
structure City where
  base : Hub
deriving DecidableEq, Repr

/-- Road; `infrastructure/roads.rs` is absent from `src/`.  Modelled from
the spec (§3: endpoints, condition in `[0,1]`, mined flag) and the use
sites in `game/state.rs` (`start_city`, `end_city`, `condition`,
`is_mined`); the road class only determines capacity, which no verified
operation reads. -/
structure Road where
  start_city : Nat
  end_city : Nat
  condition : ℚ
  is_mined : Bool
deriving DecidableEq, Repr

/-- Bounding box, from `game/state.rs` lines 870-876. -/
structure BoundingBox where
  min_x : ℚ
  min_y : ℚ
  max_x : ℚ
  max_y : ℚ
deriving DecidableEq, Repr

/-- `BoundingBox::from_points` (`game/state.rs` lines 878-885). -/
def BoundingBox.from_points (x1 y1 x2 y2 : ℚ) : BoundingBox :=
  { min_x := min x1 x2
    min_y := min y1 y2
    max_x := max x1 x2
    max_y := max y1 y2 }

/-- `BoundingBox::intersects` (`game/state.rs` lines 887-892). -/
def BoundingBox.intersects (b other : BoundingBox) : Bool :=
  decide (b.min_x ≤ other.max_x) && decide (b.max_x ≥ other.min_x) &&
    decide (b.min_y ≤ other.max_y) && decide (b.max_y ≥ other.min_y)

/-- `BoundingBox::contains_with_buffer` (`game/state.rs` lines 894-899). -/
def BoundingBox.contains_with_buffer (b : BoundingBox) (x y buffer : ℚ) :
    Bool :=
  decide (x ≥ b.min_x - buffer) && decide (x ≤ b.max_x + buffer) &&
    decide (y ≥ b.min_y - buffer) && decide (y ≤ b.max_y + buffer)

/-- `VictoryConditions`, from `game/mod.rs` lines 107-112. -/
structure VictoryConditions where
  turn_limit : Option Nat
  key_cities : List String
  required_city_control : ℚ
  enemy_casualties_threshold : ℚ
deriving DecidableEq, Repr

/-- Game configuration, from `game/mod.rs` (`GameConfig`); map parameters
and starting entities are omitted (setup data).  `max_supply_range` is read
in `game/state.rs::can_supply_unit` but missing from the `GameConfig`
declaration — modelled from the spec (§6 lists max supply range among the
configuration parameters). -/
structure GameConfig where
  initial_weather : Weather
  victory_conditions : VictoryConditions
  max_supply_range : ℚ
deriving DecidableEq, Repr

/-- Game statistics, from `game/mod.rs` (`GameStatistics`); the
`combat_results` log is never read by a verified operation and is
omitted. -/
structure GameStatistics where
  turns_played : Nat
  units_lost : List (String × Nat)
  damage_dealt : List (String × ℚ)
  cities_captured : List String
  supply_consumed : ℚ
deriving DecidableEq, Repr

/-- The game state, from `game/state.rs` (`Game`).  `HashMap`s become
association lists.  The source declares `air_units : HashMap<usize,
AirUnit>` but uses every entry as `&dyn MilitaryUnit`, a trait `AirUnit`
itself does not implement (only `FighterSquadron` and `BomberSquadron`
do); the map is therefore modelled as holding those implementors.  Tiles,
the visibility map, terrain rules, event listeners and event history are
never read by a verified operation and are omitted. -/
structure Game where
  turn : Nat
  phase : GamePhase
  weather : Weather
  time_of_day : TimeOfDay
  land_units : List (Nat × LandUnit)
  ships : List (Nat × Ship)
  air_units : List (Nat × CUnit)
  cities : List (Nat × City)
  roads : List (Nat × Road)
  controlled_territories : List (String × List Nat)
  supply_network : List (Nat × List Nat)
  statistics : GameStatistics
  config : GameConfig

/-- Association-list update: replaces the value at `k` (models writing
through `get_mut`). -/
def updA {α : Type} (l : List (Nat × α)) (k : Nat) (v : α) : List (Nat × α) :=
  l.map (fun p => if p.1 == k then (k, v) else p)

/-- Position of a hub, as used by the free function `calculate_distance`
on `city.base.x`, `city.base.y`. -/
def Hub.pos (h : Hub) : Position :=
  { x := h.x, y := h.y, heading := 0, altitude := none, depth := none }

/-- `Game::get_unit` (`game/state.rs` lines 542-552): land units first,
then ships, then air units. -/
def Game.get_unit (g : Game) (unit_id : Nat) : Option CUnit :=
  match List.lookup unit_id g.land_units with
  | some u => some (.land u)
  | none =>
    match List.lookup unit_id g.ships with
    | some s => some (.ship s)
    | none => List.lookup unit_id g.air_units

/-- `Game::can_block_supply` (`game/state.rs` lines 692-697). -/
def Game.can_block_supply (g : Game) (unit : CUnit) : Bool :=
  match unit.get_status with
  | UnitStatus.Active | UnitStatus.Entrenched => true
  | _ => false

/-- `Game::get_roads_between` (`game/state.rs` lines 651-672): every road
whose endpoint cities both exist and whose bounding box intersects the
bounding box of the start/end segment (roads with a missing endpoint are
skipped). -/
def Game.get_roads_between (g : Game) (start_x start_y end_x end_y : ℚ) :
    List Road :=
  let path_bbox := BoundingBox.from_points start_x start_y end_x end_y
  (g.roads.filterMap (fun p =>
    match List.lookup p.2.start_city g.cities,
        List.lookup p.2.end_city g.cities with
    | some start_city, some end_city =>
      let road_bbox := BoundingBox.from_points
        start_city.base.x start_city.base.y end_city.base.x end_city.base.y
      if path_bbox.intersects road_bbox then some p.2 else none
    | _, _ => none))

/-- `Game::get_enemy_units_between` (`game/state.rs` lines 674-690): every
unit — of any faction — whose position lies in the segment bounding box
expanded by the fixed buffer 50. -/
def Game.get_enemy_units_between (g : Game)
    (start_x start_y end_x end_y : ℚ) : List CUnit :=
  let path_bbox := BoundingBox.from_points start_x start_y end_x end_y
  let buffer_distance : ℚ := 50
  ((g.land_units.map (fun p => CUnit.land p.2)) ++
    (g.ships.map (fun p => CUnit.ship p.2)) ++
    (g.air_units.map (fun p => p.2))).filter (fun u =>
      path_bbox.contains_with_buffer u.get_position.x u.get_position.y
        buffer_distance)

/-- The per-road blocking test of `is_supply_line_clear`
(`road.is_mined || road.condition < 0.2`). -/
def Road.blocked (road : Road) : Bool :=
  road.is_mined || decide (road.condition < 1/5)

/-- `Game::is_supply_line_clear` (`game/state.rs` lines 108-134). -/
def Game.is_supply_line_clear (g : Game) (city_id unit_id : Nat) : Bool :=
  match List.lookup city_id g.cities, g.get_unit unit_id with
  | some city, some unit =>
    let roads := g.get_roads_between city.base.x city.base.y
      unit.get_position.x unit.get_position.y
    if roads.any (fun road => road.blocked)
    then false
    else
      let enemies := g.get_enemy_units_between city.base.x city.base.y
        unit.get_position.x unit.get_position.y
      if enemies.any (fun enemy_unit => g.can_block_supply enemy_unit) then
        false
      else true
  | _, _ => false

/-- `Game::can_supply_unit` (`game/state.rs` lines 88-106): in range
(`distance > max_supply_range` rejects) and supply line clear. -/
def Game.can_supply_unit (g : Game) (city_id unit_id : Nat) : Bool :=
  match List.lookup city_id g.cities, g.get_unit unit_id with
  | some city, some unit =>
    if !sqrtle (city.base.pos.distSq unit.get_position)
        g.config.max_supply_range then false
    else g.is_supply_line_clear city_id unit_id
  | _, _ => false

/-- `Game::update_supply_network` (`game/state.rs` lines 67-86): full
rebuild — for every city, the list of unit ids (land, ship, then air
order) it can supply. -/
def Game.update_supply_network (g : Game) : Game :=
  let all_unit_ids :=
    g.land_units.map (fun p => p.1) ++ g.ships.map (fun p => p.1) ++
      g.air_units.map (fun p => p.1)
  { g with supply_network :=
      g.cities.map (fun c =>
        (c.1, all_unit_ids.filter (fun uid => g.can_supply_unit c.1 uid))) }

/-- `Game::bomb_road` (`game/state.rs` lines 506-524): reduce the road's
condition (floored at 0), then recompute the supply network only when the
new condition is below 0.2. -/
def Game.bomb_road (g : Game) (road_id : Nat) (damage : ℚ) :
    Game × Option GameError :=
  match List.lookup road_id g.roads with
  | none => (g, some GameError.RoadNotFound)
  | some road =>
    let road' := { road with condition := max (road.condition - damage) 0 }
    let g₁ := { g with roads := updA g.roads road_id road' }
    if road'.condition < 1/5 then (g₁.update_supply_network, none)
    else (g₁, none)

/-- `Game::mine_road` (`game/state.rs` lines 526-538): set the mined flag,
then recompute the supply network unconditionally. -/
def Game.mine_road (g : Game) (road_id : Nat) : Game × Option GameError :=
  match List.lookup road_id g.roads with
  | none => (g, some GameError.RoadNotFound)
  | some road =>
    let road' := { road with is_mined := true }
    let g₁ := { g with roads := updA g.roads road_id road' }
    (g₁.update_supply_network, none)

/-- Weather factor of `Game::calculate_supply_amount` (`game/state.rs`
lines 945-950). -/
def supplyWeatherModifier : Weather → ℚ
  | .Clear => 1
  | .Rain => 4/5
  | .Storm => 1/2
  | .Fog => 7/10

/-- Modelled from the spec: callees of the facade actions whose definitions
are not under `src/`, gathered as explicit parameters.  `sqrtQ` models the
float `sqrt` inside `calculate_distance` (spec: straight-line distance);
`attack_range` models `MilitaryUnit::get_attack_range`; `movement_range`
models `get_movement_range`; `is_obstructed` models `Game::is_obstructed`;
`movement_supply_cost` models `Game::calculate_movement_supply_cost`;
`move_to` models the `Movable::move_to` dispatch; `consume_movement_supply`
models `Game::consume_movement_supply`; `resupplyU` models
`Maintainable::resupply`; `terrain_at` models the tile lookup
`get_terrain_at`; `rolls` are the combat resolver's two `rng` draws (spec:
injectable generator). -/
structure GameHooks where
  sqrtQ : ℚ → ℚ
  attack_range : CUnit → ℚ
  movement_range : CUnit → ℚ
  is_obstructed : Int → Int → Bool
  movement_supply_cost : CUnit → ℚ → ℚ
  move_to : CUnit → ℚ → ℚ → CUnit
  consume_movement_supply : Nat → ℚ → Game → Game
  resupplyU : CUnit → Arsenal → CUnit
  terrain_at : ℚ → ℚ → Option TerrainM
  rolls : ℚ × ℚ

/-- Writes a unit back into the map that holds its id (models mutation
through `get_unit_mut`). -/
def Game.set_unit (g : Game) (unit_id : Nat) (u : CUnit) : Game :=
  if (List.lookup unit_id g.land_units).isSome then
    match u with
    | .land lu => { g with land_units := updA g.land_units unit_id lu }
    | _ => g
  else if (List.lookup unit_id g.ships).isSome then
    match u with
    | .ship s => { g with ships := updA g.ships unit_id s }
    | _ => g
  else if (List.lookup unit_id g.air_units).isSome then
    { g with air_units := updA g.air_units unit_id u }
  else g

/-- `Game::can_move_to` (`game/state.rs` lines 563-572): destination is
truncated to integer coordinates, the distance to it must not exceed the
unit's movement range, and the destination must be unobstructed. -/
def Game.can_move_to (hooks : GameHooks) (g : Game) (unit_id : Nat)
    (x y : ℚ) : Bool :=
  match g.get_unit unit_id with
  | none => false
  | some unit =>
    let dest : Position :=
      { x := (ratTrunc x : ℚ), y := (ratTrunc y : ℚ), heading := 0,
        altitude := none, depth := none }
    let distance := hooks.sqrtQ (unit.get_position.distSq dest)
    decide (distance ≤ hooks.movement_range unit) &&
      !hooks.is_obstructed (ratTrunc x) (ratTrunc y)

/-- `Game::can_attack` query (`game/state.rs` lines 553-561). -/
def Game.can_attack (hooks : GameHooks) (g : Game)
    (attacker_id defender_id : Nat) : Bool :=
  match g.get_unit attacker_id, g.get_unit defender_id with
  | some attacker, some defender =>
    let distance :=
      hooks.sqrtQ (attacker.get_position.distSq defender.get_position)
    decide (distance ≤ hooks.attack_range attacker) &&
      attacker.can_attack defender
  | _, _ => false

/-- `Game::move_unit` (`game/state.rs` lines 348-382): phase gate first,
then validation, supply check, and movement.  Errors return the state
untouched (the source has mutated nothing before each early return). -/
def Game.move_unit (hooks : GameHooks) (g : Game) (unit_id : Nat)
    (x y : ℚ) : Game × Option GameError :=
  if g.phase ≠ GamePhase.Movement then (g, some GameError.PhaseError)
  else if !Game.can_move_to hooks g unit_id x y then
    (g, some GameError.InvalidMove)
  else
    match g.get_unit unit_id with
    | some unit =>
      let current_pos := unit.get_position
      let distance := hooks.sqrtQ (current_pos.distSq
        { x := x, y := y, heading := 0, altitude := none, depth := none })
      let supply_cost := hooks.movement_supply_cost unit distance
      if unit.get_stats.supply_level < supply_cost then
        (g, some GameError.InsufficientSupplies)
      else
        let g₁ := g.set_unit unit_id (hooks.move_to unit x y)
        (hooks.consume_movement_supply unit_id supply_cost g₁, none)
    | none => (g, some GameError.UnitNotFound)

/-- `Game::attack_unit` (`game/state.rs` lines 384-428): phase gate, attack
validation, terrain lookup, combat resolution, write-back of the mutated
units.  (The damage-statistics update reads `combat_result.attacker_id`, a
field `CombatResult` does not declare — ill-typed in the source and not
modelled.) -/
def Game.attack_unit (hooks : GameHooks) (g : Game)
    (attacker_id defender_id : Nat) : Game × Option GameError :=
  if g.phase ≠ GamePhase.Combat then (g, some GameError.PhaseError)
  else if !Game.can_attack hooks g attacker_id defender_id then
    (g, some GameError.InvalidAttack)
  else
    match g.get_unit attacker_id with
    | none => (g, some GameError.UnitNotFound)
    | some attacker =>
      match g.get_unit defender_id with
      | none => (g, some GameError.UnitNotFound)
      | some defender =>
        match hooks.terrain_at defender.get_position.x
            defender.get_position.y with
        | none => (g, some GameError.InvalidMove)
        | some terrain =>
          match resolve_combat attacker defender terrain none
              hooks.rolls.1 hooks.rolls.2 with
          | Except.error e => (g, some e)
          | Except.ok out =>
            let g₁ := g.set_unit attacker_id out.attacker
            let g₂ := g₁.set_unit defender_id out.defender
            (g₂, none)

/-- `Game::find_nearest_supply_source` (`game/state.rs` lines 903-919):
among cities with positive storage, the one minimising the integer key
`(distance * 100) as i32`; errors with `UnitNotFound` when the unit is
missing and `InsufficientSupplies` when no city qualifies.  (`HashMap`
iteration order is arbitrary; ties are resolved by list order here.) -/
def Game.find_nearest_supply_source (hooks : GameHooks) (g : Game)
    (unit_id : Nat) : Except GameError Nat :=
  match g.get_unit unit_id with
  | none => Except.error GameError.UnitNotFound
  | some unit =>
    let candidates := g.cities.filter (fun c => 0 < c.2.base.storage)
    let keyed := candidates.map (fun c =>
      (c.1, ratTrunc (hooks.sqrtQ (unit.get_position.distSq c.2.base.pos) * 100)))
    match keyed with
    | [] => Except.error GameError.InsufficientSupplies
    | first :: rest =>
      Except.ok (rest.foldl
        (fun best c => if c.2 < best.2 then c else best) first).1

/-- `Game::calculate_supply_amount` (`game/state.rs` lines 921-953):
`storage * 0.01 * (1000 - distance)/1000 * weather_modifier`; note there
is no flooring at zero anywhere in the body. -/
def Game.calculate_supply_amount (hooks : GameHooks) (g : Game)
    (unit_id source_id : Nat) : ℚ :=
  match g.get_unit unit_id with
  | none => 0
  | some unit =>
    match List.lookup source_id g.cities with
    | none => 0
    | some source =>
      let distance := hooks.sqrtQ (unit.get_position.distSq source.base.pos)
      let base_amount := (source.base.storage : ℚ) * (1/100)
      let distance_factor := (1000 - distance) / 1000
      let amount := base_amount * distance_factor
      amount * supplyWeatherModifier g.weather

/-- `Game::resupply_unit` (`game/state.rs` lines 470-504): phase gate,
nearest-source search, amount computation, resupply package, statistics
accumulation. -/
def Game.resupply_unit (hooks : GameHooks) (g : Game) (unit_id : Nat) :
    Game × Option GameError :=
  if g.phase ≠ GamePhase.Supply then (g, some GameError.PhaseError)
  else
    match g.get_unit unit_id with
    | none => (g, some GameError.UnitNotFound)
    | some unit =>
      match g.find_nearest_supply_source hooks unit_id with
      | Except.error e => (g, some e)
      | Except.ok nearest_source =>
        let supply_amount :=
          g.calculate_supply_amount hooks unit_id nearest_source
        let supplies : Arsenal :=
          { ammunition := ratTrunc (supply_amount * 100)
            fuel := supply_amount * 50
            supplies := ratTrunc (supply_amount * 75) }
        let g₁ := g.set_unit unit_id (hooks.resupplyU unit supplies)
        let g₂ := { g₁ with statistics := { g₁.statistics with
          supply_consumed := g₁.statistics.supply_consumed + supply_amount } }
        (g₂, none)

/-- `Game::count_faction_units` (`game/state.rs` lines 636-649). -/
def Game.count_faction_units (g : Game) (faction : String) : Nat :=
  (((g.land_units.map (fun p => CUnit.land p.2)) ++
    (g.ships.map (fun p => CUnit.ship p.2)) ++
    (g.air_units.map (fun p => p.2))).filter (fun u =>
      u.get_faction == faction && u.get_status ≠ UnitStatus.Destroyed)).length

/-- City-control test shared by `is_over` and `get_winner`
(`game/state.rs` lines 268-281 and 301-315): the fraction of key cities
whose controlling faction matches, compared with the required control
fraction.  (With an empty key-city list the source divides `0.0/0.0`,
giving `NaN`, and `NaN >= t` is false; the embedding's `0 / 0 = 0` differs
only when the required fraction is nonpositive, which both uses below
treat identically.) -/
def Game.city_control_met (g : Game) (faction : String) : Bool :=
  let controlled_key_cities :=
    (g.config.victory_conditions.key_cities.filter (fun city_name =>
      g.cities.any (fun c =>
        c.2.base.name == city_name && c.2.base.controller == faction))).length
  decide (((controlled_key_cities : ℚ) /
      (g.config.victory_conditions.key_cities.length : ℚ)) ≥
    g.config.victory_conditions.required_city_control)

/-- Casualty-rate test shared by `is_over` and `get_winner`
(`game/state.rs` lines 284-290 and 318-333):
`casualties / (live_units + casualties)` against the threshold. -/
def Game.casualty_met (g : Game) (faction : String) (casualties : Nat) :
    Bool :=
  let total_units := g.count_faction_units faction
  decide (((casualties : ℚ) / ((total_units + casualties : Nat) : ℚ)) ≥
    g.config.victory_conditions.enemy_casualties_threshold)

/-- `Game::is_over` (`game/state.rs` lines 259-293): turn limit reached, or
some faction key of `controlled_territories` meets city control, or some
`units_lost` entry meets the casualty threshold. -/
def Game.is_over (g : Game) : Bool :=
  (match g.config.victory_conditions.turn_limit with
    | some limit => decide (g.turn ≥ limit)
    | none => false) ||
  g.controlled_territories.any (fun ft => g.city_control_met ft.1) ||
  g.statistics.units_lost.any (fun p => g.casualty_met p.1 p.2)

/-- `Game::get_winner` (`game/state.rs` lines 295-336): `None` unless the
game is over; then the first faction meeting city control, else the first
faction for which some other faction's casualties meet the threshold, else
`None`. -/
def Game.get_winner (g : Game) : Option String :=
  if !g.is_over then none
  else
    match g.controlled_territories.find? (fun ft => g.city_control_met ft.1)
      with
    | some ft => some ft.1
    | none =>
      match g.controlled_territories.find? (fun ft =>
        g.statistics.units_lost.any (fun p =>
          p.1 ≠ ft.1 && g.casualty_met p.1 p.2)) with
      | some ft => some ft.1
      | none => none

/-- Turn-phase with budgets, from `game/turns.rs` (`Phase`); planning time
is kept in whole seconds. -/
inductive TPhase
  | Planning (time_remaining : Nat)
  | Movement (moves_remaining : Nat)
  | Combat (attacks_remaining : Nat)
  | Supply (supply_points : Nat)
  | EndTurn
deriving DecidableEq, Repr

/-- `calculate_supply_points` (`game/turns.rs` lines 235-243): base points
are `unit_count * 2` in `u32` arithmetic (wrapping modulo `2^32`), the
bonus is `(unit_count as f32).sqrt() as u32` — under exact arithmetic the
integer square root — and the sum is again `u32`. -/
def calculate_supply_points (unit_count : Nat) : Nat :=
  let base_points := (unit_count * 2) % (2 ^ 32)
  let bonus_points := Nat.sqrt unit_count
  (base_points + bonus_points) % (2 ^ 32)

/-- Turn manager state, from `game/turns.rs` (`TurnManager`);
`phase_start_time : Instant` is wall-clock time and is not modelled (no
claim involves it), and the event log is omitted. -/
structure TurnManager where
  current_turn : Nat
  current_phase : TPhase
  time_of_day : TimeOfDay
  weather : Weather
deriving DecidableEq, Repr

/-- `TurnManager::advance_time_of_day` (`game/turns.rs` lines 137-144). -/
def TurnManager.advance_time_of_day (t : TurnManager) : TurnManager :=
  { t with time_of_day :=
      match t.time_of_day with
      | .Dawn => .Day
      | .Day => .Dusk
      | .Dusk => .Night
      | .Night => .Dawn }

/-- `TurnManager::update_weather` (`game/turns.rs` lines 146-163); the two
`rand::random::<f32>()` draws are the explicit arguments. -/
def TurnManager.update_weather (t : TurnManager) (draw₁ draw₂ : ℚ) :
    TurnManager :=
  if draw₁ < 3/10 then
    let new_weather :=
      if draw₂ < 2/5 then Weather.Clear
      else if draw₂ < 7/10 then Weather.Rain
      else if draw₂ < 9/10 then Weather.Storm
      else Weather.Fog
    { t with weather := new_weather }
  else t

/-- `TurnManager::advance_turn` (`game/turns.rs` lines 125-135). -/
def TurnManager.advance_turn (t : TurnManager) (draw₁ draw₂ : ℚ) :
    TurnManager :=
  (({ t with current_turn := t.current_turn + 1
    } : TurnManager).advance_time_of_day).update_weather draw₁ draw₂

/-- `TurnManager::advance_phase` (`game/turns.rs` lines 103-123): the
strictly linear rotation; the Combat → Supply transition assigns
`calculate_supply_points unit_count`. -/
def TurnManager.advance_phase (t : TurnManager) (unit_count : Nat)
    (draw₁ draw₂ : ℚ) : TurnManager :=
  match t.current_phase with
  | .Planning _ => { t with current_phase := .Movement unit_count }
  | .Movement _ => { t with current_phase := .Combat unit_count }
  | .Combat _ =>
    { t with current_phase := .Supply (calculate_supply_points unit_count) }
  | .Supply _ => { t with current_phase := .EndTurn }
  | .EndTurn =>
    { t.advance_turn draw₁ draw₂ with current_phase := .Planning 300 }

/-! ### Operation sequences for the bounds invariant (C1) -/

/-- Damage/resupply calls on a land unit (the operations `units/land.rs`
exposes that touch strength or supply; the land `repair` called by the
facade has no implementation under `src/`). -/
inductive LandOp
  | damage (d : ℚ)
  | resupply (r : ℚ)

/-- Damage/resupply/hull-repair calls on a ship. -/
inductive ShipOp
  | damage (d : ℚ)
  | resupply (r : ℚ)
  | repair (hours : ℚ)

/-- Argument restrictions under which the bounds hold: damage fractions in
`[0,1]`, nonnegative supply rates and repair hours. -/
def LandOp.valid : LandOp → Prop
  | .damage d => 0 ≤ d ∧ d ≤ 1
  | .resupply r => 0 ≤ r

/-- Argument restrictions for ship operations. -/
def ShipOp.valid : ShipOp → Prop
  | .damage d => 0 ≤ d ∧ d ≤ 1
  | .resupply r => 0 ≤ r
  | .repair hours => 0 ≤ hours

/-- One land-unit call. -/
def LandUnit.applyOp (u : LandUnit) : LandOp → LandUnit
  | .damage d => u.receive_damage d
  | .resupply r => u.update_supply r

/-- One ship call. -/
def Ship.applyOp (s : Ship) : ShipOp → Ship
  | .damage d => s.receive_damage d
  | .resupply r => s.update_supply r
  | .repair hours => s.repair_hull hours

/-- A finite sequence of land-unit calls. -/
def LandUnit.runOps (u : LandUnit) : List LandOp → LandUnit
  | [] => u
  | op :: ops => (u.applyOp op).runOps ops

/-- A finite sequence of ship calls. -/
def Ship.runOps (s : Ship) : List ShipOp → Ship
  | [] => s
  | op :: ops => (s.applyOp op).runOps ops

/-- The declared bounds of a land unit: nonnegative strength, supply level
in `[0,1]`. -/
def LandUnit.inBounds (u : LandUnit) : Prop :=
  0 ≤ u.stats.strength ∧ 0 ≤ u.stats.supply_level ∧ u.stats.supply_level ≤ 1

/-- The declared bounds of a ship (hull in `[0,1]`, supply in `[0,1]`)
together with the declared ranges of its damage-attenuation parameters
(`missile_defense` is documented `0.0 to 1.0`, `damage_control` is a
nonnegative repair rate). -/
def Ship.ok (s : Ship) : Prop :=
  0 ≤ s.hull_integrity ∧ s.hull_integrity ≤ 1 ∧
    0 ≤ s.stats.supply_level ∧ s.stats.supply_level ≤ 1 ∧
    0 ≤ s.capabilities.missile_defense ∧ s.capabilities.missile_defense ≤ 1 ∧
    0 ≤ s.damage_control

theorem ratTrunc_nonneg {q : ℚ} (h : 0 ≤ q) : 0 ≤ ratTrunc q := by
  unfold ratTrunc
  rw [if_pos h]
  exact Int.floor_nonneg.mpr h

theorem land_step_bounds (u : LandUnit) (op : LandOp) (hu : u.inBounds)
    (hop : op.valid) : (u.applyOp op).inBounds := by
  obtain ⟨hs, hsl, hsu⟩ := hu
  cases op with
  | damage d =>
    obtain ⟨hd0, hd1⟩ := hop
    refine ⟨?_, hsl, hsu⟩
    apply ratTrunc_nonneg
    have h1 : (0 : ℚ) ≤ (u.stats.strength : ℚ) := by exact_mod_cast hs
    have h2 : (0 : ℚ) ≤ 1 - d := by linarith
    exact mul_nonneg h1 h2
  | resupply r =>
    have hr : 0 ≤ r := hop
    refine ⟨hs, ?_, ?_⟩
    · exact le_min (by linarith) (by norm_num)
    · exact min_le_right _ _

theorem ship_step_bounds (s : Ship) (op : ShipOp) (hs : s.ok)
    (hop : op.valid) : (s.applyOp op).ok := by
  obtain ⟨h0, h1, hs0, hs1, hm0, hm1, hdc⟩ := hs
  cases op with
  | damage d =>
    obtain ⟨hd0, hd1⟩ := hop
    have heff0 : 0 ≤ d * (1 - s.capabilities.missile_defense * (1/2)) := by
      apply mul_nonneg hd0; linarith
    have heff1 : d * (1 - s.capabilities.missile_defense * (1/2)) ≤ 1 := by
      calc d * (1 - s.capabilities.missile_defense * (1/2)) ≤
          1 * (1 - s.capabilities.missile_defense * (1/2)) := by
            apply mul_le_mul_of_nonneg_right hd1; linarith
        _ ≤ 1 := by linarith
    refine ⟨?_, ?_, hs0, hs1, hm0, hm1, hdc⟩
    · exact mul_nonneg h0 (by linarith)
    · calc s.hull_integrity * (1 - d * (1 - s.capabilities.missile_defense * (1/2)))
          ≤ s.hull_integrity * 1 := by
            apply mul_le_mul_of_nonneg_left (by linarith) h0
      _ ≤ 1 := by linarith
  | resupply r =>
    have hr : 0 ≤ r := hop
    exact ⟨h0, h1, le_min (by linarith) (by norm_num), min_le_right _ _,
      hm0, hm1, hdc⟩
  | repair hours =>
    have hr : 0 ≤ (1/10 : ℚ) * s.damage_control * hours := by
      apply mul_nonneg (mul_nonneg (by norm_num) hdc) hop
    exact ⟨le_min (by linarith) (by norm_num), min_le_right _ _, hs0, hs1,
      hm0, hm1, hdc⟩

theorem land_run_bounds (u : LandUnit) (ops : List LandOp)
    (hu : u.inBounds) (hops : ∀ op ∈ ops, op.valid) :
    (u.runOps ops).inBounds := by
  induction ops generalizing u with
  | nil => exact hu
  | cons op ops ih =>
    exact ih _ (land_step_bounds u op hu (hops op (by simp)))
      (fun o ho => hops o (by simp [ho]))

theorem ship_run_bounds (s : Ship) (ops : List ShipOp)
    (hs : s.ok) (hops : ∀ op ∈ ops, op.valid) :
    (s.runOps ops).ok := by
  induction ops generalizing s with
  | nil => exact hs
  | cons op ops ih =>
    exact ih _ (ship_step_bounds s op hs (hops op (by simp)))
      (fun o ho => hops o (by simp [ho]))

/-- C1 (amended): for every finite sequence of `receive_damage`,
`update_supply` and `repair_hull` calls whose damage fractions lie in
`[0,1]` and whose supply rates and repair hours are nonnegative, a land
unit's strength never becomes negative and its supply level stays in
`[0,1]`, and a ship's hull integrity and supply level stay in `[0,1]`
(given its declared parameter ranges).  The restriction on the arguments
is forced: the counterexample shows a damage fraction above 1 drives
strength negative and a negative supply rate drives the supply level below
0 — the source clamps the supply level only from above. -/
theorem c1_bounds_theorem :
    (∀ (u : LandUnit) (ops : List LandOp), u.inBounds →
      (∀ op ∈ ops, op.valid) → (u.runOps ops).inBounds) ∧
    (∀ (s : Ship) (ops : List ShipOp), s.ok →
      (∀ op ∈ ops, op.valid) → (s.runOps ops).ok) :=
  ⟨land_run_bounds, ship_run_bounds⟩

/-! ### Concrete fixtures used by counterexamples and witnesses -/

/-- Shorthand for a surface position. -/
def posAt (x y : ℚ) : Position :=
  { x := x, y := y, heading := 0, altitude := none, depth := none }

/-- A stocked arsenal. -/
def arse0 : Arsenal := { ammunition := 10, fuel := 100, supplies := 10 }

/-- Infantry capabilities, values from `LandUnit::new` for `Infantry`. -/
def capsInf : UnitCapabilities :=
  { anti_armor := 1/4, close_attack := 1/2, medium_attack := 1/5,
    long_attack := 1/10, aa_range := 1, aa_altitude := 1000,
    aa_damage := 426/100, bridging := false, special_forces := false }

/-- A healthy Blue infantry unit at `(10, 0)`. -/
def uBlue : LandUnit :=
  { name := "Blue-1", unit_type := .Infantry, faction := "Blue",
    position := posAt 10 0,
    stats := { strength := 100, morale := 1, training := 1, fatigue := 0,
               supply_level := 1 },
    arsenal := arse0, status := .Active, terrain_bonus := none,
    entrenchment := 0, capabilities := capsInf }

/-- Destroyer capabilities, values from `Ship::new` for `"Destroyer"`. -/
def capsDestroyer : ShipCapabilities :=
  { max_speed := 30, lift_capacity := 1000, fuel_capacity := 500,
    missile_defense := 7/10, gun_range := 20, gun_damage := 50,
    torpedo_range := 15, torpedo_damage := 80, aa_range := 10,
    aa_ceiling := 10000 }

/-- A healthy Blue destroyer. -/
def ship0 : Ship :=
  { name := "D-1", faction := "Blue",
    position := { x := 0, y := 0, heading := 0, altitude := none,
                  depth := some 0 },
    stats := { strength := 100, morale := 1, training := 4/5, fatigue := 0,
               supply_level := 1 },
    arsenal := arse0, status := .Active, hull_integrity := 1,
    damage_control := 1, capabilities := capsDestroyer }

/-- C1 witness: a concrete valid call sequence keeps a concrete land unit
and ship inside their bounds. -/
theorem c1_bounds_witness :
    (uBlue.runOps [LandOp.damage (1/2), LandOp.resupply (1/10)]).inBounds ∧
    (ship0.runOps [ShipOp.damage (1/2), ShipOp.repair 1,
      ShipOp.resupply (1/10)]).ok := by
  constructor
  · apply c1_bounds_theorem.1
    · simp [LandUnit.inBounds, uBlue]
    · intro op hop
      simp only [List.mem_cons, List.not_mem_nil, or_false] at hop
      rcases hop with rfl | rfl
      · exact ⟨by norm_num, by norm_num⟩
      · show (0:ℚ) ≤ 1/10
        norm_num
  · apply c1_bounds_theorem.2
    · simp [Ship.ok, ship0, capsDestroyer]
      norm_num
    · intro op hop
      simp only [List.mem_cons, List.not_mem_nil, or_false] at hop
      rcases hop with rfl | rfl | rfl
      · exact ⟨by norm_num, by norm_num⟩
      · show (0:ℚ) ≤ 1
        norm_num
      · show (0:ℚ) ≤ 1/10
        norm_num

/-- C1 counterexample: as stated over arbitrary call arguments the claim is
false — a damage fraction of 2 drives the strength of a healthy land unit
to `-100`, and a supply rate of `-2` drives its supply level to `-1`
(`update_supply` clamps only at the declared maximum `1.0`, never from
below). -/
theorem c1_counterexample :
    (uBlue.update_supply (-2)).stats.supply_level = -1 ∧
    ((-1 : ℚ) < 0) ∧
    (uBlue.receive_damage 2).stats.strength = -100 ∧
    ((-100 : Int) < 0) := by
  refine ⟨?_, by norm_num, ?_, by norm_num⟩
  · simp [LandUnit.update_supply, uBlue]
    norm_num
  · simp [LandUnit.receive_damage, uBlue, ratTrunc]
    norm_num

theorem int_not_lt_tdiv_four {x : Int} (hx : 0 < x) : ¬ x < x.tdiv 4 := by
  have h1 : x.tdiv 4 = x / 4 := Int.tdiv_eq_ediv (le_of_lt hx) (by norm_num)
  have h2 : x / 4 ≤ x := Int.ediv_le_self 4 (le_of_lt hx)
  omega

/-- C8 (amended): after `receive_damage`, a unit's status is `Destroyed`
exactly when the post-damage strength (land) or hull integrity (ship)
is `≤ 0` — in particular a unit whose post-damage strength/hull stays
positive keeps its previous status on land, since the source's `Disabled`
guard compares the post-damage strength with a quarter of itself
(`strength < strength / 4`), which no positive strength satisfies; a ship
becomes `Disabled` when its hull is positive but below the absolute
threshold `0.25`, and keeps its previous status at `0.25` or above.
`receive_damage` never produces `Retreating`. -/
theorem c8_status_theorem :
    (∀ (u : LandUnit) (d : ℚ),
      ((u.receive_damage d).stats.strength ≤ 0 →
        (u.receive_damage d).status = UnitStatus.Destroyed) ∧
      (0 < (u.receive_damage d).stats.strength →
        (u.receive_damage d).status = u.status)) ∧
    (∀ (s : Ship) (d : ℚ),
      ((s.receive_damage d).hull_integrity ≤ 0 →
        (s.receive_damage d).status = UnitStatus.Destroyed) ∧
      (0 < (s.receive_damage d).hull_integrity →
        (s.receive_damage d).hull_integrity < 1/4 →
        (s.receive_damage d).status = UnitStatus.Disabled) ∧
      (1/4 ≤ (s.receive_damage d).hull_integrity →
        (s.receive_damage d).status = s.status)) := by
  constructor
  · intro u d
    constructor
    · intro h
      simp only [LandUnit.receive_damage] at h ⊢
      rw [if_pos h]
    · intro h
      simp only [LandUnit.receive_damage] at h ⊢
      rw [if_neg (by omega), if_neg (int_not_lt_tdiv_four h)]
  · intro s d
    refine ⟨?_, ?_, ?_⟩
    · intro h
      simp only [Ship.receive_damage] at h ⊢
      rw [if_pos h]
    · intro h0 h1
      simp only [Ship.receive_damage] at h0 h1 ⊢
      rw [if_neg (by linarith), if_pos h1]
    · intro h
      simp only [Ship.receive_damage] at h ⊢
      rw [if_neg (by linarith), if_neg (by linarith)]

/-- C8 witness: concrete instances of the amended statement — a hit that
wipes out the land unit marks it `Destroyed`, and a hit that leaves a ship
at hull 0.15 marks it `Disabled`. -/
theorem c8_status_witness :
    ((uBlue.receive_damage 1).stats.strength ≤ 0 ∧
      (uBlue.receive_damage 1).status = UnitStatus.Destroyed) ∧
    (0 < (ship0.receive_damage (13/10)).hull_integrity ∧
      (ship0.receive_damage (13/10)).hull_integrity < 1/4 ∧
      (ship0.receive_damage (13/10)).status = UnitStatus.Disabled) := by
  have hl : (uBlue.receive_damage 1).stats.strength ≤ 0 := by
    simp [LandUnit.receive_damage, uBlue, ratTrunc]
  have hh : (ship0.receive_damage (13/10)).hull_integrity = 31/200 := by
    simp [Ship.receive_damage, ship0, capsDestroyer]
    norm_num
  have h0 : 0 < (ship0.receive_damage (13/10)).hull_integrity := by
    rw [hh]; norm_num
  have h1 : (ship0.receive_damage (13/10)).hull_integrity < 1/4 := by
    rw [hh]; norm_num
  exact ⟨⟨hl, (c8_status_theorem.1 uBlue 1).1 hl⟩,
    ⟨h0, h1, ((c8_status_theorem.2 ship0 (13/10)).2.1 h0 h1)⟩⟩

/-- C8 counterexample: read as "strength falls below a quarter of the
pre-damage strength", the claim fails — a 90% hit drops the unit from 100
to 10, well below a quarter of 100, yet the status stays `Active`: the
source's guard `strength < strength / 4` compares the new strength against
itself and never fires. -/
theorem c8_counterexample :
    uBlue.stats.strength = 100 ∧
    (uBlue.receive_damage (9/10)).stats.strength = 10 ∧
    (10 : Int) < 100 / 4 ∧
    (uBlue.receive_damage (9/10)).status = UnitStatus.Active := by
  have hval : ratTrunc ((uBlue.stats.strength : ℚ) * (1 - 9/10)) = 10 := by
    show ratTrunc ((100 : ℚ) * (1 - 9/10)) = 10
    unfold ratTrunc
    norm_num
  have hstr : (uBlue.receive_damage (9/10)).stats.strength = 10 := by
    simp only [LandUnit.receive_damage, hval]
  refine ⟨rfl, hstr, by decide, ?_⟩
  simp only [LandUnit.receive_damage, hval]
  norm_num
  rfl

/-! ### C3: hit chance -/

/-- Hit chance as claim C3 words it: the same thresholds AND the same
penalty amounts (0.3 / 0.1) for the weather and the time-of-day penalty.
Used only to exhibit the divergence from the source. -/
def claim_hit_chance (attacker defender : CUnit)
    (modifiers : CombatModifiers) : ℚ :=
  let base_chance : ℚ :=
    if (defender.get_position.altitude).isSome then air_base_chance attacker
    else if (defender.get_position.depth).isSome then
      naval_base_chance attacker
    else 4/5
  let weather_penalty : ℚ :=
    if modifiers.weather < 1/2 then 3/10
    else if modifiers.weather < 4/5 then 1/10
    else 0
  let time_penalty : ℚ :=
    if modifiers.time_of_day < 1/2 then 3/10
    else if modifiers.time_of_day < 4/5 then 1/10
    else 0
  min (max (base_chance - weather_penalty - time_penalty) (1/10)) (19/20)

/-- Domain base chance of `calculate_hit_chance`, named for the amended
statement. -/
def hit_base (attacker defender : CUnit) : ℚ :=
  if (defender.get_position.altitude).isSome then air_base_chance attacker
  else if (defender.get_position.depth).isSome then naval_base_chance attacker
  else 4/5

/-- Weather penalty of `calculate_hit_chance`, named for the amended
statement. -/
def weather_pen (modifiers : CombatModifiers) : ℚ :=
  if modifiers.weather < 1/2 then 3/10
  else if modifiers.weather < 4/5 then 1/10
  else 0

/-- Time-of-day penalty of `calculate_hit_chance`: amounts 0.2 / 0.1. -/
def time_pen (modifiers : CombatModifiers) : ℚ :=
  if modifiers.time_of_day < 1/2 then 1/5
  else if modifiers.time_of_day < 4/5 then 1/10
  else 0

/-- Clamp to the interval `[0.10, 0.95]`, written as a piecewise
function. -/
def clamp_chance (c : ℚ) : ℚ :=
  if c < 1/10 then 1/10 else if 19/20 < c then 19/20 else c

theorem min_max_eq_clamp (c : ℚ) :
    min (max c (1/10)) (19/20) = clamp_chance c := by
  unfold clamp_chance
  rcases lt_or_le c (1/10) with h | h
  · rw [if_pos h, max_eq_right h.le, min_eq_left (by norm_num)]
  · rw [if_neg (not_lt.mpr h), max_eq_left h]
    rcases lt_or_le (19/20 : ℚ) c with h2 | h2
    · rw [if_pos h2, min_eq_right h2.le]
    · rw [if_neg (not_lt.mpr h2), min_eq_left h2]

/-- C3 (amended): each side's hit chance equals the domain base chance
(air defender: `0.7 + air_to_air × 0.3` for a fighter attacker, `0.5`
otherwise; submerged defender: `0.6 + missile_defense × 0.2` for a ship
attacker, `0.4` otherwise; ground `0.8`), minus a weather penalty of 0.3
below 0.5 and 0.1 below 0.8, minus a time-of-day penalty with the same
thresholds but amounts 0.2 below 0.5 and 0.1 below 0.8, the result clamped
to `[0.10, 0.95]`. -/
theorem c3_hit_chance_theorem (attacker defender : CUnit)
    (modifiers : CombatModifiers) :
    calculate_hit_chance attacker defender modifiers =
      clamp_chance
        (hit_base attacker defender - weather_pen modifiers -
          time_pen modifiers) ∧
    1/10 ≤ calculate_hit_chance attacker defender modifiers ∧
    calculate_hit_chance attacker defender modifiers ≤ 19/20 := by
  refine ⟨?_, ?_, ?_⟩
  · unfold calculate_hit_chance hit_base weather_pen time_pen
    rw [min_max_eq_clamp]
  · unfold calculate_hit_chance
    exact le_min (le_max_right _ _) (by norm_num)
  · unfold calculate_hit_chance
    exact min_le_right _ _

/-- Combat modifiers with a night-time modifier 0.4 and everything else
neutral. -/
def m3 : CombatModifiers := ⟨1, 2/5, 1, 1, 1, 1, 1, 1⟩

theorem landBlue_pos : (CUnit.land uBlue).get_position = posAt 10 0 := rfl

theorem posAt_altitude (x y : ℚ) : (posAt x y).altitude = none := rfl

theorem posAt_depth (x y : ℚ) : (posAt x y).depth = none := rfl

/-- C3 counterexample: ground combat with a clear-weather modifier 1.0 and
a time-of-day modifier 0.4 — the source's hit chance is
`0.8 − 0 − 0.2 = 0.6`, while the claim's "same penalty amounts" reading
(time penalty 0.3 below 0.5) yields `0.8 − 0 − 0.3 = 0.5`. -/
theorem c3_counterexample :
    calculate_hit_chance (.land uBlue) (.land uBlue) m3 = 3/5 ∧
    claim_hit_chance (.land uBlue) (.land uBlue) m3 = 1/2 ∧
    ((3/5 : ℚ) ≠ 1/2) := by
  refine ⟨?_, ?_, by norm_num⟩
  · simp only [calculate_hit_chance, landBlue_pos, posAt_altitude,
      posAt_depth, Option.isSome_none, Bool.false_eq_true, if_false, m3]
    norm_num [min_def, max_def]
  · simp only [claim_hit_chance, landBlue_pos, posAt_altitude,
      posAt_depth, Option.isSome_none, Bool.false_eq_true, if_false, m3]
    norm_num [min_def, max_def]

/-! ### C2: simultaneous exchange in combat resolution -/

/-- C2: in every successful combat resolution, both damages are functions
of the incoming (pre-damage) attacker and defender only — the attacker's
hit inflicts `attack_power × (1 − min(defense_power, 0.8))`, the
defender's hit returns `defense_power × 0.5 × (1 − min(attack_power,
0.8))`, a miss inflicts zero — and each side's damage is applied to the
pre-damage unit: the resolution order cannot bias the outcome. -/
theorem c2_exchange_theorem (attacker defender : CUnit) (terrain : TerrainM)
    (mods : Option CombatModifiers) (r₁ r₂ : ℚ) (out : CombatOutcome)
    (h : resolve_combat attacker defender terrain mods r₁ r₂ =
      Except.ok out) :
    out.result.attacker_damage_dealt =
      (if r₁ < calculate_hit_chance attacker defender
          (mods.getD CombatModifiers.default) then
        calculate_attack_power attacker defender
            (mods.getD CombatModifiers.default) *
          (1 - min (calculate_defense_power defender attacker terrain
            (mods.getD CombatModifiers.default)) (4/5))
      else 0) ∧
    out.result.defender_damage_dealt =
      (if r₂ < calculate_hit_chance defender attacker
          (mods.getD CombatModifiers.default) then
        calculate_defense_power defender attacker terrain
            (mods.getD CombatModifiers.default) * (1/2) *
          (1 - min (calculate_attack_power attacker defender
            (mods.getD CombatModifiers.default)) (4/5))
      else 0) ∧
    out.attacker = attacker.receive_damage out.result.defender_damage_dealt ∧
    out.defender = defender.receive_damage out.result.attacker_damage_dealt
    := by
  unfold resolve_combat at h
  by_cases hv : validate_combat attacker defender = true
  · rw [hv] at h
    simp only [Bool.not_true, Bool.false_eq_true, if_false,
      Except.ok.injEq] at h
    subst h
    exact ⟨rfl, rfl, rfl, rfl⟩
  · rw [Bool.not_eq_true] at hv
    rw [hv] at h
    simp at h

/-- A terrain with a unit defense multiplier (for witnesses). -/
def tM0 : TerrainM := ⟨fun _ => 1⟩

/-- The outcome of the witness resolution: both rolls miss, so no damage
is applied and the units are unchanged. -/
def c2out : CombatOutcome :=
  { attacker := CUnit.land uBlue
    defender := CUnit.land uBlue
    result := { attacker_damage_dealt := 0, defender_damage_dealt := 0,
                attacker_losses := 0, defender_losses := 0,
                combat_events := [] } }

/-- C2 witness: a concrete successful resolution (both rolls 1, both
sides miss) satisfying the theorem's conclusion. -/
theorem c2_exchange_witness :
    resolve_combat (.land uBlue) (.land uBlue) tM0 none 1 1 =
      Except.ok c2out ∧
    c2out.result.attacker_damage_dealt =
      (if (1 : ℚ) < calculate_hit_chance (.land uBlue) (.land uBlue)
          (Option.getD none CombatModifiers.default) then
        calculate_attack_power (.land uBlue) (.land uBlue)
            (Option.getD none CombatModifiers.default) *
          (1 - min (calculate_defense_power (.land uBlue) (.land uBlue) tM0
            (Option.getD none CombatModifiers.default)) (4/5))
      else 0) := by
  have hchance : calculate_hit_chance (.land uBlue) (.land uBlue)
      (Option.getD none CombatModifiers.default) = 4/5 := by
    simp only [calculate_hit_chance, CUnit.get_position, uBlue, posAt,
      Option.getD, CombatModifiers.default]
    norm_num
  have hvalid : validate_combat (.land uBlue) (.land uBlue) = true := by
    simp only [validate_combat, CUnit.get_status, CUnit.get_arsenal,
      CUnit.can_attack, CUnit.get_position, LandUnit.can_attack, uBlue,
      arse0, posAt, sqrtle, Position.distSq]
    norm_num
  have hmiss : ¬ ((1 : ℚ) < calculate_hit_chance (.land uBlue) (.land uBlue)
      (Option.getD none CombatModifiers.default)) := by
    rw [hchance]; norm_num
  have hdmg : CUnit.calculate_damage (.land uBlue) (.land uBlue) = 1/2 := by
    simp only [CUnit.calculate_damage, CUnit.get_position,
      LandUnit.calculate_damage, LandUnit.calculate_combat_effectiveness,
      uBlue, posAt, capsInf, Position.distSq, sqrtle]
    norm_num
  have hrd : (CUnit.land uBlue).receive_damage 0 = CUnit.land uBlue := by
    simp only [CUnit.receive_damage, LandUnit.receive_damage, CUnit.land.injEq]
    norm_num [uBlue, ratTrunc]
    exact fun hcontra => absurd hcontra (by decide)
  have h : resolve_combat (.land uBlue) (.land uBlue) tM0 none 1 1 =
      Except.ok c2out := by
    unfold resolve_combat
    rw [hvalid]
    simp only [Bool.not_true, Bool.false_eq_true, if_false, c2out]
    unfold resolve_strike apply_damage handle_special_effects
    rw [hchance]
    have hlt : ¬ ((1:ℚ) < 4/5) := by norm_num
    simp only [if_neg hlt, hdmg, hrd]
    norm_num [CUnit.get_status, uBlue]
  exact ⟨h,
    (c2_exchange_theorem (.land uBlue) (.land uBlue) tM0 none 1 1 c2out h).1⟩

/-! ### C9: supply-points budget -/

theorem csp_def (n : Nat) : calculate_supply_points n =
    ((n * 2) % (2 ^ 32) + Nat.sqrt n) % (2 ^ 32) := rfl

theorem advance_combat_phase (t : TurnManager) (k n : Nat) (d₁ d₂ : ℚ)
    (ht : t.current_phase = TPhase.Combat k) :
    (t.advance_phase n d₁ d₂).current_phase =
      TPhase.Supply (calculate_supply_points n) := by
  unfold TurnManager.advance_phase
  rw [ht]

theorem nat_sqrt_2_pow_31 : Nat.sqrt 2147483648 = 46340 := by
  have h1 : 46340 ≤ Nat.sqrt 2147483648 := by
    rw [Nat.le_sqrt]
    norm_num
  have h2 : Nat.sqrt 2147483648 < 46341 := by
    rw [Nat.sqrt_lt]
    norm_num
  omega

/-- C9 (amended): whenever `2 × n + ⌊√n⌋` fits in `u32`, the Combat →
Supply transition assigns exactly `2 × n + ⌊√n⌋` supply points for a live
unit count of `n`; outside that range the `u32` arithmetic of
`calculate_supply_points` wraps modulo `2^32` and the exact value is not
attained. -/
theorem c9_supply_points_theorem (n : Nat)
    (h : 2 * n + Nat.sqrt n < 2 ^ 32) (t : TurnManager) (k : Nat)
    (ht : t.current_phase = TPhase.Combat k) (draw₁ draw₂ : ℚ) :
    (t.advance_phase n draw₁ draw₂).current_phase =
      TPhase.Supply (2 * n + Nat.sqrt n) := by
  have hsp : calculate_supply_points n = 2 * n + Nat.sqrt n := by
    rw [csp_def]
    have h2n : n * 2 < 2 ^ 32 := by omega
    rw [Nat.mod_eq_of_lt h2n]
    have hsum : n * 2 + Nat.sqrt n < 2 ^ 32 := by omega
    rw [Nat.mod_eq_of_lt hsum]
    omega
  rw [advance_combat_phase t k n draw₁ draw₂ ht, hsp]

/-- A turn manager sitting in the Combat phase. -/
def tmCombat : TurnManager :=
  { current_turn := 1, current_phase := .Combat 3, time_of_day := .Dawn,
    weather := .Clear }

/-- C9 witness: with 5 units the Supply budget is `2 × 5 + ⌊√5⌋`. -/
theorem c9_supply_points_witness :
    (tmCombat.advance_phase 5 1 1).current_phase =
      TPhase.Supply (2 * 5 + Nat.sqrt 5) := by
  have hle := Nat.sqrt_le_self 5
  have hp : (2:ℕ) ^ 32 = 4294967296 := by norm_num
  have hlt : 2 * 5 + Nat.sqrt 5 < 2 ^ 32 := by omega
  exact c9_supply_points_theorem 5 hlt tmCombat 3 rfl 1 1

/-- C9 counterexample: at a unit count of `2^31` the `u32` multiplication
`unit_count * 2` wraps to 0 and the budget is `46340 = ⌊√(2^31)⌋`, not the
exact value `2 × 2^31 + ⌊√(2^31)⌋ = 4294967296 + 46340`. -/
theorem c9_counterexample :
    calculate_supply_points 2147483648 = 46340 ∧
    (tmCombat.advance_phase 2147483648 1 1).current_phase =
      TPhase.Supply 46340 ∧
    2 * 2147483648 + Nat.sqrt 2147483648 = 4295013636 ∧
    (46340 : Nat) ≠ 4295013636 := by
  have hmod : (2147483648 * 2) % (2 ^ 32) = 0 := by norm_num
  have hc : calculate_supply_points 2147483648 = 46340 := by
    rw [csp_def, nat_sqrt_2_pow_31, hmod]
    norm_num
  refine ⟨hc, ?_, ?_, by norm_num⟩
  · rw [advance_combat_phase tmCombat 3 2147483648 1 1 rfl, hc]
  · rw [nat_sqrt_2_pow_31]

/-! ### C4: suppliability -/

/-- A Blue-held city with storage at the origin. -/
def city4 : City :=
  ⟨{ name := "Taipei", x := 0, y := 0, storage := 1000, condition := 1,
     controller := "Blue" }⟩

/-- Victory conditions mirroring `GameConfig::default`. -/
def vc0 : VictoryConditions :=
  { turn_limit := some 30, key_cities := ["Taipei", "Kaohsiung"],
    required_city_control := 7/10, enemy_casualties_threshold := 1/2 }

/-- A configuration with supply range 500. -/
def cfg0 : GameConfig :=
  { initial_weather := .Clear, victory_conditions := vc0,
    max_supply_range := 500 }

/-- Empty statistics. -/
def stats0 : GameStatistics :=
  { turns_played := 0, units_lost := [], damage_dealt := [],
    cities_captured := [], supply_consumed := 0 }

/-- A one-city, one-unit game in the Planning phase: the Blue unit sits 10
away from the Blue city, well inside supply range, with no roads and no
other unit on the map. -/
def g4 : Game :=
  { turn := 1, phase := .Planning, weather := .Clear, time_of_day := .Day,
    land_units := [(1, uBlue)], ships := [], air_units := [],
    cities := [(0, city4)], roads := [], controlled_territories := [],
    supply_network := [], statistics := stats0, config := cfg0 }

/-- C4: the code's behaviour on the concrete failing input — the Blue unit
is within range of the Blue city, there is no road to block the line and
no enemy on the map, yet `can_supply_unit` returns `false`:
`get_enemy_units_between` returns every unit regardless of faction, so the
supplied unit itself (status `Active`) blocks its own supply line. -/
theorem c4_code_behavior :
    sqrtle (city4.base.pos.distSq uBlue.position) cfg0.max_supply_range
      = true ∧
    g4.get_roads_between 0 0 10 0 = [] ∧
    g4.get_enemy_units_between 0 0 10 0 = [CUnit.land uBlue] ∧
    uBlue.faction = city4.base.controller ∧
    g4.can_supply_unit 0 1 = false := by
  have hdist : city4.base.pos.distSq uBlue.position = 100 := by
    simp [Position.distSq, Hub.pos, city4, uBlue, posAt]
    norm_num
  have hin : sqrtle (city4.base.pos.distSq uBlue.position)
      cfg0.max_supply_range = true := by
    rw [hdist]
    simp [sqrtle, cfg0]
    norm_num
  have henemy : g4.get_enemy_units_between 0 0 10 0 = [CUnit.land uBlue] := by
    simp only [Game.get_enemy_units_between, g4, List.map_nil, List.map_cons,
      List.nil_append, List.append_nil, List.filter]
    norm_num [BoundingBox.contains_with_buffer, BoundingBox.from_points,
      CUnit.get_position, uBlue, posAt]
  refine ⟨hin, rfl, henemy, rfl, ?_⟩
  unfold Game.can_supply_unit
  have hcity : List.lookup 0 g4.cities = some city4 := rfl
  have hunit : g4.get_unit 1 = some (CUnit.land uBlue) := rfl
  simp only [hcity, hunit, landBlue_pos]
  have hin' : sqrtle ((city4.base.pos).distSq (posAt 10 0))
      g4.config.max_supply_range = true := by
    have hd : (city4.base.pos).distSq (posAt 10 0) = 100 := by
      simp [Position.distSq, Hub.pos, city4, posAt]
      norm_num
    rw [hd]
    simp [sqrtle, g4, cfg0]
    norm_num
  simp only [hin', Bool.not_true, Bool.false_eq_true, if_false]
  unfold Game.is_supply_line_clear
  simp only [hcity, hunit, landBlue_pos]
  have hroads : g4.get_roads_between city4.base.x city4.base.y
      (posAt 10 0).x (posAt 10 0).y = [] := rfl
  simp only [hroads, List.any_nil, Bool.false_eq_true, if_false]
  have henemy' : g4.get_enemy_units_between city4.base.x city4.base.y
      (posAt 10 0).x (posAt 10 0).y = [CUnit.land uBlue] := by
    have hx : city4.base.x = 0 := rfl
    have hy : city4.base.y = 0 := rfl
    have hpx : (posAt (10:ℚ) 0).x = 10 := rfl
    have hpy : (posAt (10:ℚ) 0).y = 0 := rfl
    rw [hx, hy, hpx, hpy]
    exact henemy
  simp only [henemy', List.any_cons, List.any_nil,
    Game.can_block_supply, CUnit.get_status, uBlue]
  rfl

/-! ### C5: phase gating of the facade actions -/

/-- C5: calling `move_unit` outside Movement, `attack_unit` outside Combat
or `resupply_unit` outside Supply fails with `PhaseError` and returns the
game state untouched, whatever the inputs and the behaviour of the
modelled callees. -/
theorem c5_phase_gate_theorem (hooks : GameHooks) (g : Game)
    (unit_id defender_id : Nat) (x y : ℚ) :
    (g.phase ≠ GamePhase.Movement →
      Game.move_unit hooks g unit_id x y = (g, some GameError.PhaseError)) ∧
    (g.phase ≠ GamePhase.Combat →
      Game.attack_unit hooks g unit_id defender_id =
        (g, some GameError.PhaseError)) ∧
    (g.phase ≠ GamePhase.Supply →
      Game.resupply_unit hooks g unit_id =
        (g, some GameError.PhaseError)) := by
  refine ⟨fun h => ?_, fun h => ?_, fun h => ?_⟩
  · unfold Game.move_unit
    rw [if_pos h]
  · unfold Game.attack_unit
    rw [if_pos h]
  · unfold Game.resupply_unit
    rw [if_pos h]

/-- A concrete stand-in for the float square root used by the witness
hooks: exact on perfect-square integers, where the `f32` square root is
exact as well. -/
def sqrtQ0 (q : ℚ) : ℚ := (Nat.sqrt q.num.toNat : ℚ)

/-- Trivial but well-typed witness hooks for the modelled callees. -/
def hooks0 : GameHooks :=
  { sqrtQ := sqrtQ0
    attack_range := fun _ => 0
    movement_range := fun _ => 0
    is_obstructed := fun _ _ => false
    movement_supply_cost := fun _ _ => 0
    move_to := fun u _ _ => u
    consume_movement_supply := fun _ _ g => g
    resupplyU := fun u _ => u
    terrain_at := fun _ _ => none
    rolls := (0, 0) }

/-- C5 witness: in the Planning phase all three actions fail with
`PhaseError` on the concrete game, leaving it unchanged. -/
theorem c5_phase_gate_witness :
    g4.phase = GamePhase.Planning ∧
    Game.move_unit hooks0 g4 1 0 0 = (g4, some GameError.PhaseError) ∧
    Game.attack_unit hooks0 g4 1 2 = (g4, some GameError.PhaseError) ∧
    Game.resupply_unit hooks0 g4 1 = (g4, some GameError.PhaseError) := by
  have h1 : g4.phase ≠ GamePhase.Movement := by decide
  have h2 : g4.phase ≠ GamePhase.Combat := by decide
  have h3 : g4.phase ≠ GamePhase.Supply := by decide
  exact ⟨rfl, (c5_phase_gate_theorem hooks0 g4 1 2 0 0).1 h1,
    (c5_phase_gate_theorem hooks0 g4 1 2 0 0).2.1 h2,
    (c5_phase_gate_theorem hooks0 g4 1 2 0 0).2.2 h3⟩

/-! ### C6: resupply amount -/

/-- C6 (amended): the computed resupply amount equals
`storage × 0.01 × (1000 − distance)/1000 × weather_modifier` (weather:
Clear 1.0, Rain 0.8, Storm 0.5, Fog 0.7) — with no flooring at zero: for a
source with positive storage and a distance beyond 1000 the amount is
strictly negative. -/
theorem c6_amount_theorem (hooks : GameHooks) (g : Game)
    (unit_id source_id : Nat) (unit : CUnit) (source : City)
    (hu : g.get_unit unit_id = some unit)
    (hc : List.lookup source_id g.cities = some source) :
    Game.calculate_supply_amount hooks g unit_id source_id =
      (source.base.storage : ℚ) * (1/100) *
        ((1000 - hooks.sqrtQ (unit.get_position.distSq source.base.pos)) /
          1000) * supplyWeatherModifier g.weather ∧
    (0 < source.base.storage →
      1000 < hooks.sqrtQ (unit.get_position.distSq source.base.pos) →
      Game.calculate_supply_amount hooks g unit_id source_id < 0) := by
  have hval : Game.calculate_supply_amount hooks g unit_id source_id =
      (source.base.storage : ℚ) * (1/100) *
        ((1000 - hooks.sqrtQ (unit.get_position.distSq source.base.pos)) /
          1000) * supplyWeatherModifier g.weather := by
    unfold Game.calculate_supply_amount
    rw [hu, hc]
  refine ⟨hval, fun hst hd => ?_⟩
  rw [hval]
  have hw : 0 < supplyWeatherModifier g.weather := by
    cases g.weather <;> norm_num [supplyWeatherModifier]
  have hs : (0 : ℚ) < (source.base.storage : ℚ) * (1/100) := by
    have : (0 : ℚ) < (source.base.storage : ℚ) := by exact_mod_cast hst
    linarith
  have hf : ((1000 - hooks.sqrtQ (unit.get_position.distSq source.base.pos)) /
      1000 : ℚ) < 0 := by
    apply div_neg_of_neg_of_pos _ (by norm_num)
    linarith
  exact mul_neg_of_neg_of_pos (mul_neg_of_pos_of_neg hs hf) hw

/-- A Blue infantry unit parked 2000 away from the origin. -/
def u6 : LandUnit := { uBlue with position := posAt 2000 0 }

/-- A supply city with storage 100 at the origin. -/
def city6 : City :=
  ⟨{ name := "Hub", x := 0, y := 0, storage := 100, condition := 1,
     controller := "Blue" }⟩

/-- The C6 game: one unit at distance 2000 from the only city. -/
def g6 : Game := { g4 with land_units := [(1, u6)], cities := [(0, city6)] }

theorem g6_distSq : (CUnit.land u6).get_position.distSq city6.base.pos
    = 4000000 := by
  show (posAt 2000 0).distSq city6.base.pos = 4000000
  simp [Position.distSq, Hub.pos, city6, posAt]
  norm_num

theorem g6_sqrt : sqrtQ0 ((CUnit.land u6).get_position.distSq
    city6.base.pos) = 2000 := by
  rw [g6_distSq]
  unfold sqrtQ0
  norm_num
  rw [show Int.toNat 4000000 = ((2000 * 2000 : ℕ)) from rfl, Nat.sqrt_eq]
  norm_num

/-- C6 witness: the amended statement at the concrete game — the formula
value and, since storage is positive and the distance 2000 exceeds 1000, a
strictly negative amount. -/
theorem c6_amount_witness :
    Game.calculate_supply_amount hooks0 g6 1 0 =
      ((city6.base.storage : ℚ)) * (1/100) *
        ((1000 - hooks0.sqrtQ ((CUnit.land u6).get_position.distSq
          city6.base.pos)) / 1000) * supplyWeatherModifier g6.weather ∧
    Game.calculate_supply_amount hooks0 g6 1 0 < 0 := by
  have h := c6_amount_theorem hooks0 g6 1 0 (CUnit.land u6) city6 rfl rfl
  refine ⟨h.1, h.2 (by norm_num [city6]) ?_⟩
  show (1000 : ℚ) < hooks0.sqrtQ ((CUnit.land u6).get_position.distSq
    city6.base.pos)
  rw [show hooks0.sqrtQ = sqrtQ0 from rfl, g6_sqrt]
  norm_num

/-- C6 counterexample: the claim's "floored at zero — never negative for
any distance" is false: at distance 2000 (a realizable geometry, since
`2000² = 4000000` is the squared hub–unit distance) from a storage-100
source under clear weather, the computed amount is `-1 < 0`. -/
theorem c6_counterexample :
    (2000 : ℚ) * 2000 = (CUnit.land u6).get_position.distSq city6.base.pos ∧
    Game.calculate_supply_amount hooks0 g6 1 0 = -1 ∧
    ((-1 : ℚ) < 0) := by
  refine ⟨by rw [g6_distSq]; norm_num, ?_, by norm_num⟩
  unfold Game.calculate_supply_amount
  have hu : g6.get_unit 1 = some (CUnit.land u6) := rfl
  have hc : List.lookup 0 g6.cities = some city6 := rfl
  simp only [hu, hc, show hooks0.sqrtQ = sqrtQ0 from rfl, g6_sqrt,
    show g6.weather = Weather.Clear from rfl]
  norm_num [city6, supplyWeatherModifier]

/-! ### C10: turn-limit end without a winner -/

/-- C10: when the turn counter has reached the configured limit but no
faction meets the key-city-control condition and no recorded casualty
entry meets the casualty threshold, the game is over yet `get_winner`
returns `None`: a game ended solely by the turn limit has no winner. -/
theorem c10_turn_limit_theorem (g : Game) (limit : Nat)
    (hl : g.config.victory_conditions.turn_limit = some limit)
    (ht : limit ≤ g.turn)
    (hc : ∀ ft ∈ g.controlled_territories, g.city_control_met ft.1 = false)
    (hk : ∀ p ∈ g.statistics.units_lost, g.casualty_met p.1 p.2 = false) :
    g.is_over = true ∧ g.get_winner = none := by
  have hover : g.is_over = true := by
    unfold Game.is_over
    rw [hl]
    simp [ht]
  refine ⟨hover, ?_⟩
  unfold Game.get_winner
  rw [hover]
  simp only [Bool.not_true, Bool.false_eq_true, if_false]
  have hfind1 : g.controlled_territories.find?
      (fun ft => g.city_control_met ft.1) = none := by
    rw [List.find?_eq_none]
    intro x hx
    simp [hc x hx]
  have hfind2 : g.controlled_territories.find? (fun ft =>
      g.statistics.units_lost.any (fun p =>
        p.1 ≠ ft.1 && g.casualty_met p.1 p.2)) = none := by
    rw [List.find?_eq_none]
    intro x hx
    intro hany
    rw [List.any_eq_true] at hany
    obtain ⟨p, hp, hpp⟩ := hany
    rw [hk p hp] at hpp
    simp at hpp
  rw [hfind1, hfind2]

/-- The C10 game: the turn counter has reached the limit 30, no territory
records and no casualty records exist. -/
def g10 : Game := { g4 with turn := 30 }

/-- C10 witness: the concrete turn-limited game is over with no winner. -/
theorem c10_turn_limit_witness : g10.is_over = true ∧ g10.get_winner = none
    := by
  have hterr : g10.controlled_territories = [] := rfl
  have hlost : g10.statistics.units_lost = [] := rfl
  refine c10_turn_limit_theorem g10 30 rfl (by show (30:ℕ) ≤ 30; norm_num)
    ?_ ?_
  · intro ft hft
    rw [hterr] at hft
    cases hft
  · intro p hp
    rw [hlost] at hp
    cases hp

/-! ### C7: supply-network recomputation after road damage/mining -/

theorem blocked_any_congr (g : Game) (rid : Nat) (road road' : Road)
    (hs : road'.start_city = road.start_city)
    (he : road'.end_city = road.end_city)
    (hb : road'.blocked = road.blocked)
    (hnd : ∀ p ∈ g.roads, p.1 = rid → p.2 = road)
    (sx sy ex ey : ℚ) :
    (Game.get_roads_between { g with roads := updA g.roads rid road' }
        sx sy ex ey).any (fun road => road.blocked) =
      (g.get_roads_between sx sy ex ey).any (fun road => road.blocked) := by
  unfold Game.get_roads_between updA
  dsimp only
  rw [List.filterMap_map, List.any_filterMap, List.any_filterMap]
  generalize hL : g.roads = L at hnd ⊢
  clear hL
  induction L with
  | nil => rfl
  | cons a t ih =>
    rw [List.any_cons, List.any_cons,
      ih (fun p hp => hnd p (List.mem_cons_of_mem a hp))]
    congr 1
    by_cases ha : (a.1 == rid) = true
    · have ha1 : a.1 = rid := by simpa using ha
      have ha2 : a.2 = road := hnd a (List.mem_cons_self a t) ha1
      rw [Function.comp_apply, if_pos ha]
      dsimp only
      rw [hs, he, ha2]
      cases List.lookup road.start_city g.cities with
      | none => rfl
      | some sc =>
        cases List.lookup road.end_city g.cities with
        | none => rfl
        | some ec =>
          dsimp only
          by_cases hbb : (BoundingBox.from_points sx sy ex ey).intersects
              (BoundingBox.from_points sc.base.x sc.base.y ec.base.x
                ec.base.y) = true
          · rw [if_pos hbb, if_pos hbb]
            exact hb
          · rw [if_neg hbb, if_neg hbb]
    · rw [Function.comp_apply, if_neg ha]

theorem can_supply_unit_congr (g : Game) (rid : Nat) (road road' : Road)
    (hs : road'.start_city = road.start_city)
    (he : road'.end_city = road.end_city)
    (hb : road'.blocked = road.blocked)
    (hnd : ∀ p ∈ g.roads, p.1 = rid → p.2 = road)
    (cid uid : Nat) :
    Game.can_supply_unit { g with roads := updA g.roads rid road' } cid uid
      = g.can_supply_unit cid uid := by
  have hget : ∀ u, Game.get_unit { g with roads := updA g.roads rid road' }
      u = g.get_unit u := fun _ => rfl
  have hline : Game.is_supply_line_clear
      { g with roads := updA g.roads rid road' } cid uid =
      g.is_supply_line_clear cid uid := by
    unfold Game.is_supply_line_clear
    dsimp only
    rw [hget uid]
    cases hcity : List.lookup cid g.cities with
    | none => rfl
    | some city =>
      cases hunit : g.get_unit uid with
      | none => rfl
      | some unit =>
        dsimp only
        rw [blocked_any_congr g rid road road' hs he hb hnd]
        have henem : Game.get_enemy_units_between
            { g with roads := updA g.roads rid road' } city.base.x
            city.base.y unit.get_position.x unit.get_position.y =
            g.get_enemy_units_between city.base.x city.base.y
              unit.get_position.x unit.get_position.y := rfl
        have hblock : ∀ u, Game.can_block_supply
            { g with roads := updA g.roads rid road' } u =
            g.can_block_supply u := fun _ => rfl
        rw [henem]
        simp only [hblock]
  unfold Game.can_supply_unit
  dsimp only
  rw [hget uid]
  cases hcity : List.lookup cid g.cities with
  | none => rfl
  | some city =>
    cases hunit : g.get_unit uid with
    | none => rfl
    | some unit =>
      dsimp only
      rw [hline]

/-- The condition update `bomb_road` applies to a road. -/
def bombedRoad (road : Road) (damage : ℚ) : Road :=
  { road with condition := max (road.condition - damage) 0 }

/-- The mined version of a road. -/
def minedRoad (road : Road) : Road := { road with is_mined := true }

/-- A game with one road entry replaced. -/
def withRoad (g : Game) (rid : Nat) (r : Road) : Game :=
  { g with roads := updA g.roads rid r }

/-- C7 (amended): a successful `bomb_road` reduces the road's condition
(floored at 0) and recomputes the supply network only when the new
condition falls below 0.2; when the new condition stays at 0.2 or above
(for nonnegative damage), the network field is left as it was AND the
suppliability predicate of the new state coincides with that of the old
state, so the cached connectivity is still accurate.  `mine_road` always
recomputes the network.  (The claim's "recomputed after every `bomb_road`
for every damage value" is refuted by the counterexample.) -/
theorem c7_recompute_theorem (g : Game) (rid : Nat) (damage : ℚ)
    (road : Road) (hr : List.lookup rid g.roads = some road)
    (hnd : ∀ p ∈ g.roads, p.1 = rid → p.2 = road) (hd : 0 ≤ damage) :
    ((Game.bomb_road g rid damage).2 = none) ∧
    ((bombedRoad road damage).condition < 1/5 →
      (Game.bomb_road g rid damage).1 =
        Game.update_supply_network
          (withRoad g rid (bombedRoad road damage))) ∧
    (1/5 ≤ (bombedRoad road damage).condition →
      (Game.bomb_road g rid damage).1 =
        withRoad g rid (bombedRoad road damage) ∧
      ∀ cid uid,
        Game.can_supply_unit (withRoad g rid (bombedRoad road damage))
          cid uid = g.can_supply_unit cid uid) ∧
    ((Game.mine_road g rid).1 =
      Game.update_supply_network (withRoad g rid (minedRoad road))) := by
  have hbomb : Game.bomb_road g rid damage =
      (if (bombedRoad road damage).condition < 1/5 then
        (Game.update_supply_network
          (withRoad g rid (bombedRoad road damage)), none)
      else (withRoad g rid (bombedRoad road damage), none)) := by
    unfold Game.bomb_road bombedRoad withRoad
    rw [hr]
  refine ⟨?_, ?_, ?_, ?_⟩
  · rw [hbomb]
    by_cases hcond : (bombedRoad road damage).condition < 1/5
    · rw [if_pos hcond]
    · rw [if_neg hcond]
  · intro hlow
    rw [hbomb, if_pos hlow]
  · intro hhigh
    have hcond : ¬ (bombedRoad road damage).condition < 1/5 :=
      not_lt.mpr hhigh
    refine ⟨by rw [hbomb, if_neg hcond], ?_⟩
    intro cid uid
    have hhigh' : 1/5 ≤ max (road.condition - damage) 0 := hhigh
    have hcold : 1/5 ≤ road.condition := by
      rcases max_cases (road.condition - damage) 0 with ⟨hm, _⟩ | ⟨hm, _⟩
      · rw [hm] at hhigh'
        linarith
      · rw [hm] at hhigh'
        linarith
    have hb : (bombedRoad road damage).blocked = road.blocked := by
      unfold Road.blocked bombedRoad
      dsimp only
      rw [decide_eq_false (not_lt.mpr hhigh'),
        decide_eq_false (not_lt.mpr hcold)]
    exact can_supply_unit_congr g rid road (bombedRoad road damage)
      rfl rfl hb hnd cid uid
  · unfold Game.mine_road minedRoad withRoad
    rw [hr]

/-- The initial C7 road: full condition, unmined, between city 0 and
itself. -/
def road7 : Road :=
  { start_city := 0, end_city := 0, condition := 1, is_mined := false }

/-- The C7 game: one full-condition road and a deliberately stale
supply-network cache. -/
def g7 : Game :=
  { g4 with roads := [(0, road7)], supply_network := [(5, [7])] }

/-- C7 witness: the amended statement at the concrete game — bombing the
full-condition road with damage 0.5 leaves it at 0.5 ≥ 0.2, the call
succeeds without recomputation, suppliability is unchanged, and mining
recomputes the network. -/
theorem c7_recompute_witness :
    (Game.bomb_road g7 0 (1/2)).2 = none ∧
    (Game.bomb_road g7 0 (1/2)).1 = withRoad g7 0 (bombedRoad road7 (1/2)) ∧
    Game.can_supply_unit (withRoad g7 0 (bombedRoad road7 (1/2))) 0 1 =
      g7.can_supply_unit 0 1 ∧
    (Game.mine_road g7 0).1 =
      Game.update_supply_network (withRoad g7 0 (minedRoad road7)) := by
  have hr : List.lookup 0 g7.roads = some road7 := rfl
  have hnd : ∀ p ∈ g7.roads, p.1 = 0 → p.2 = road7 := by
    intro p hp _
    have hL : g7.roads = [(0, road7)] := rfl
    rw [hL] at hp
    simp only [List.mem_singleton] at hp
    rw [hp]
  have h := c7_recompute_theorem g7 0 (1/2) road7 hr hnd (by norm_num)
  have hhigh : (1:ℚ)/5 ≤ (bombedRoad road7 (1/2)).condition := by
    show (1:ℚ)/5 ≤ max (road7.condition - 1/2) 0
    rw [show road7.condition = 1 from rfl]
    rw [max_eq_left (by norm_num : (0:ℚ) ≤ 1 - 1/2)]
    norm_num
  exact ⟨h.1, (h.2.2.1 hhigh).1, (h.2.2.1 hhigh).2 0 1, h.2.2.2⟩

theorem g7b_not_suppliable :
    Game.can_supply_unit (withRoad g7 0 (bombedRoad road7 (1/2))) 0 1 =
      false := by
  unfold Game.can_supply_unit
  have hcity : List.lookup 0 (withRoad g7 0 (bombedRoad road7 (1/2))).cities
      = some city4 := rfl
  have hunit : Game.get_unit (withRoad g7 0 (bombedRoad road7 (1/2))) 1 =
      some (CUnit.land uBlue) := rfl
  simp only [hcity, hunit, landBlue_pos]
  have hin : sqrtle ((city4.base.pos).distSq (posAt 10 0))
      (withRoad g7 0 (bombedRoad road7 (1/2))).config.max_supply_range
      = true := by
    have hd : (city4.base.pos).distSq (posAt 10 0) = 100 := by
      simp [Position.distSq, Hub.pos, city4, posAt]
      norm_num
    have hcf : (withRoad g7 0 (bombedRoad road7 (1/2))).config.max_supply_range
        = 500 := rfl
    rw [hd, hcf]
    simp [sqrtle]
    norm_num
  simp only [hin, Bool.not_true, Bool.false_eq_true, if_false]
  unfold Game.is_supply_line_clear
  simp only [hcity, hunit, landBlue_pos]
  have hroads : (Game.get_roads_between
      (withRoad g7 0 (bombedRoad road7 (1/2))) city4.base.x city4.base.y
      (posAt 10 0).x (posAt 10 0).y).any (fun road => road.blocked)
      = false := by
    unfold Game.get_roads_between
    have hrds : (withRoad g7 0 (bombedRoad road7 (1/2))).roads =
        [(0, bombedRoad road7 (1/2))] := rfl
    rw [hrds]
    simp only [List.filterMap_cons, List.filterMap_nil]
    have hsc : List.lookup (bombedRoad road7 (1/2)).start_city
        (withRoad g7 0 (bombedRoad road7 (1/2))).cities = some city4 := rfl
    have hec : List.lookup (bombedRoad road7 (1/2)).end_city
        (withRoad g7 0 (bombedRoad road7 (1/2))).cities = some city4 := rfl
    simp only [hsc, hec]
    have hbb : (BoundingBox.from_points city4.base.x city4.base.y
        (posAt (10:ℚ) 0).x (posAt (10:ℚ) 0).y).intersects
        (BoundingBox.from_points city4.base.x city4.base.y city4.base.x
          city4.base.y) = true := by
      simp [BoundingBox.intersects, BoundingBox.from_points, city4, posAt,
        Hub.pos]
    simp only [hbb, if_true, List.any_cons, List.any_nil]
    norm_num [Road.blocked, bombedRoad, road7]
  simp only [hroads, Bool.false_eq_true, if_false]
  have henemy : Game.get_enemy_units_between
      (withRoad g7 0 (bombedRoad road7 (1/2))) city4.base.x city4.base.y
      (posAt 10 0).x (posAt 10 0).y = [CUnit.land uBlue] := by
    have hlu : (withRoad g7 0 (bombedRoad road7 (1/2))).land_units =
        [(1, uBlue)] := rfl
    have hsh : (withRoad g7 0 (bombedRoad road7 (1/2))).ships =
        ([] : List (Nat × Ship)) := rfl
    have hau : (withRoad g7 0 (bombedRoad road7 (1/2))).air_units =
        ([] : List (Nat × CUnit)) := rfl
    simp only [Game.get_enemy_units_between, hlu, hsh, hau, List.map_nil,
      List.map_cons, List.nil_append, List.append_nil, List.filter]
    norm_num [BoundingBox.contains_with_buffer, BoundingBox.from_points,
      CUnit.get_position, uBlue, posAt, city4, Hub.pos]
  simp only [henemy, List.any_cons, List.any_nil,
    Game.can_block_supply, CUnit.get_status, uBlue]
  rfl

/-- C7 counterexample: after a successful `bomb_road` with damage 0.5 the
supply-network field still holds the stale cache `[(5, [7])]`, which
differs from what a full recomputation of the post-call state produces —
the network is **not** recomputed on every successful `bomb_road`. -/
theorem c7_counterexample :
    (Game.bomb_road g7 0 (1/2)).2 = none ∧
    (Game.bomb_road g7 0 (1/2)).1.supply_network = [(5, [7])] ∧
    (Game.update_supply_network
      (Game.bomb_road g7 0 (1/2)).1).supply_network = [(0, [])] ∧
    ([(5, [7])] : List (Nat × List Nat)) ≠ [(0, [])] := by
  have hbomb : Game.bomb_road g7 0 (1/2) =
      (withRoad g7 0 (bombedRoad road7 (1/2)), none) := by
    unfold Game.bomb_road withRoad bombedRoad
    have hr : List.lookup 0 g7.roads = some road7 := rfl
    simp only [hr]
    rw [if_neg]
    show ¬ ((road7.condition - 1/2) ⊔ 0 < 1/5)
    rw [show road7.condition = 1 from rfl]
    norm_num
  refine ⟨by rw [hbomb], by rw [hbomb]; rfl, ?_, by simp⟩
  rw [hbomb]
  show (Game.update_supply_network
    (withRoad g7 0 (bombedRoad road7 (1/2)))).supply_network = [(0, [])]
  unfold Game.update_supply_network
  have hct : (withRoad g7 0 (bombedRoad road7 (1/2))).cities =
      [(0, city4)] := rfl
  have hlu : (withRoad g7 0 (bombedRoad road7 (1/2))).land_units =
      [(1, uBlue)] := rfl
  have hsh : (withRoad g7 0 (bombedRoad road7 (1/2))).ships =
      ([] : List (Nat × Ship)) := rfl
  have hau : (withRoad g7 0 (bombedRoad road7 (1/2))).air_units =
      ([] : List (Nat × CUnit)) := rfl
  simp only [hct, hlu, hsh, hau, List.map_nil, List.map_cons,
    List.nil_append, List.append_nil, List.filter, g7b_not_suppliable]


end Taiwan
